import Mathlib

set_option maxRecDepth 4000

/-!
Shallow embedding of the Line-E (shift/rotate and bitfield) opcode family of the
M68k-to-AArch64 dynamic binary translator, transcribed from src/src/M68k_LINEE.c.
Guest words are modelled as already byte-order-decoded natural numbers, so the
BE16 accessor of the source is the identity here.
-/

namespace Emu68

/-! Status register flag bits.  Modelled from the spec: the five condition
code flags N, Z, V, C, X are packed as a 5-bit mask (the defining header
M68k.h is outside the analyzed sources). -/

def SRB_C : Nat := 0
def SRB_V : Nat := 1
def SRB_Z : Nat := 2
def SRB_N : Nat := 3
def SRB_X : Nat := 4
def SR_C : Nat := 1 <<< SRB_C
def SR_V : Nat := 1 <<< SRB_V
def SR_Z : Nat := 1 <<< SRB_Z
def SR_N : Nat := 1 <<< SRB_N
def SR_X : Nat := 1 <<< SRB_X
def SR_NZVC : Nat := SR_N ||| SR_Z ||| SR_V ||| SR_C
def SR_NZV : Nat := SR_N ||| SR_Z ||| SR_V
def SR_XC : Nat := SR_X ||| SR_C
def SR_CCR : Nat := SR_X ||| SR_N ||| SR_Z ||| SR_V ||| SR_C

/-- Handlers of the Line-E dispatch table, one constructor per distinct
function body in M68k_LINEE.c.  The source declares the right and left
variants of each shift as aliases of one body, hence a single constructor
per pair (the function pointers are equal). -/
inductive Handler where
  | ASL_mem | LSL_mem | ROXL_mem | ROL_mem
  | ASL | LSL | ROL | ROXL
  | BFTST | BFEXTU | BFEXTS | BFFFO_reg | BFFFO
  | BFCHG_reg | BFCHG | BFSET_reg | BFSET
  | BFCLR_reg | BFCLR | BFINS_reg | BFINS
  deriving DecidableEq, Repr

def EMIT_ASL_mem : Handler := .ASL_mem
def EMIT_ASR_mem : Handler := EMIT_ASL_mem
def EMIT_LSL_mem : Handler := .LSL_mem
def EMIT_LSR_mem : Handler := EMIT_LSL_mem
def EMIT_ROXL_mem : Handler := .ROXL_mem
def EMIT_ROXR_mem : Handler := EMIT_ROXL_mem
def EMIT_ROL_mem : Handler := .ROL_mem
def EMIT_ROR_mem : Handler := EMIT_ROL_mem
def EMIT_ASL : Handler := .ASL
def EMIT_ASR : Handler := EMIT_ASL
def EMIT_LSL : Handler := .LSL
def EMIT_LSR : Handler := EMIT_LSL
def EMIT_ROL : Handler := .ROL
def EMIT_ROR : Handler := EMIT_ROL
def EMIT_ROXL : Handler := .ROXL
def EMIT_ROXR : Handler := EMIT_ROXL
def EMIT_BFTST : Handler := .BFTST
def EMIT_BFEXTU : Handler := .BFEXTU
def EMIT_BFEXTS : Handler := .BFEXTS
def EMIT_BFFFO_reg : Handler := .BFFFO_reg
def EMIT_BFFFO : Handler := .BFFFO
def EMIT_BFCHG_reg : Handler := .BFCHG_reg
def EMIT_BFCHG : Handler := .BFCHG
def EMIT_BFSET_reg : Handler := .BFSET_reg
def EMIT_BFSET : Handler := .BFSET
def EMIT_BFCLR_reg : Handler := .BFCLR_reg
def EMIT_BFCLR : Handler := .BFCLR
def EMIT_BFINS_reg : Handler := .BFINS_reg
def EMIT_BFINS : Handler := .BFINS

/-- One entry of the 4096-slot dispatch table, struct OpcodeDef.  The second
struct member of the source is NULL in every initializer of this table and is
omitted.  od_HasEA is an int 0/1 flag in the source, a Bool here. -/
structure OpcodeDef where
  od_Emit : Option Handler
  od_SRNeeds : Nat
  od_SRSets : Nat
  od_BaseLength : Nat
  od_HasEA : Bool
  od_OpSize : Nat
  deriving DecidableEq, Repr

/-- The zero initialization a C static array gives every element not covered
by a designated initializer. -/
def zeroOpcodeDef : OpcodeDef := ⟨none, 0, 0, 0, false, 0⟩

/-- The designated range initializers of InsnTable, transcribed one line per
source initializer, octal bounds as in the source. -/
def rangeInits0 : List (Nat × Nat × OpcodeDef) := [
  (0o0000, 0o0007, ⟨some EMIT_ASR, SR_X, SR_CCR, 1, false, 1⟩),
  (0o0010, 0o0017, ⟨some EMIT_LSR, SR_X, SR_CCR, 1, false, 1⟩),
  (0o0020, 0o0027, ⟨some EMIT_ROXR, SR_X, SR_CCR, 1, false, 1⟩),
  (0o0030, 0o0037, ⟨some EMIT_ROR, 0, SR_NZVC, 1, false, 1⟩),
  (0o0040, 0o0047, ⟨some EMIT_ASR, SR_X, SR_CCR, 1, false, 1⟩),
  (0o0050, 0o0057, ⟨some EMIT_LSR, SR_X, SR_CCR, 1, false, 1⟩),
  (0o0060, 0o0067, ⟨some EMIT_ROXR, SR_X, SR_CCR, 1, false, 1⟩),
  (0o0070, 0o0077, ⟨some EMIT_ROR, 0, SR_NZVC, 1, false, 1⟩),
  (0o0100, 0o0107, ⟨some EMIT_ASR, SR_X, SR_CCR, 1, false, 2⟩),
  (0o0110, 0o0117, ⟨some EMIT_LSR, SR_X, SR_CCR, 1, false, 2⟩),
  (0o0120, 0o0127, ⟨some EMIT_ROXR, SR_X, SR_CCR, 1, false, 2⟩),
  (0o0130, 0o0137, ⟨some EMIT_ROR, 0, SR_NZVC, 1, false, 2⟩),
  (0o0140, 0o0147, ⟨some EMIT_ASR, SR_X, SR_CCR, 1, false, 2⟩),
  (0o0150, 0o0157, ⟨some EMIT_LSR, SR_X, SR_CCR, 1, false, 2⟩),
  (0o0160, 0o0167, ⟨some EMIT_ROXR, SR_X, SR_CCR, 1, false, 2⟩),
  (0o0170, 0o0177, ⟨some EMIT_ROR, 0, SR_NZVC, 1, false, 2⟩),
  (0o0200, 0o0207, ⟨some EMIT_ASR, SR_X, SR_CCR, 1, false, 4⟩),
  (0o0210, 0o0217, ⟨some EMIT_LSR, SR_X, SR_CCR, 1, false, 4⟩),
  (0o0220, 0o0227, ⟨some EMIT_ROXR, SR_X, SR_CCR, 1, false, 4⟩),
  (0o0230, 0o0237, ⟨some EMIT_ROR, 0, SR_NZVC, 1, false, 4⟩),
  (0o0240, 0o0247, ⟨some EMIT_ASR, SR_X, SR_CCR, 1, false, 4⟩),
  (0o0250, 0o0257, ⟨some EMIT_LSR, SR_X, SR_CCR, 1, false, 4⟩),
  (0o0260, 0o0267, ⟨some EMIT_ROXR, SR_X, SR_CCR, 1, false, 4⟩),
  (0o0270, 0o0277, ⟨some EMIT_ROR, 0, SR_NZVC, 1, false, 4⟩),
  (0o1000, 0o1007, ⟨some EMIT_ASR, SR_X, SR_CCR, 1, false, 1⟩),
  (0o1010, 0o1017, ⟨some EMIT_LSR, SR_X, SR_CCR, 1, false, 1⟩),
  (0o1020, 0o1027, ⟨some EMIT_ROXR, SR_X, SR_CCR, 1, false, 1⟩),
  (0o1030, 0o1037, ⟨some EMIT_ROR, 0, SR_NZVC, 1, false, 1⟩),
  (0o1040, 0o1047, ⟨some EMIT_ASR, SR_X, SR_CCR, 1, false, 1⟩),
  (0o1050, 0o1057, ⟨some EMIT_LSR, SR_X, SR_CCR, 1, false, 1⟩),
  (0o1060, 0o1067, ⟨some EMIT_ROXR, SR_X, SR_CCR, 1, false, 1⟩),
  (0o1070, 0o1077, ⟨some EMIT_ROR, 0, SR_NZVC, 1, false, 1⟩),
  (0o1100, 0o1107, ⟨some EMIT_ASR, SR_X, SR_CCR, 1, false, 2⟩),
  (0o1110, 0o1117, ⟨some EMIT_LSR, SR_X, SR_CCR, 1, false, 2⟩),
  (0o1120, 0o1127, ⟨some EMIT_ROXR, SR_X, SR_CCR, 1, false, 2⟩),
  (0o1130, 0o1137, ⟨some EMIT_ROR, 0, SR_NZVC, 1, false, 2⟩),
  (0o1140, 0o1147, ⟨some EMIT_ASR, SR_X, SR_CCR, 1, false, 2⟩),
  (0o1150, 0o1157, ⟨some EMIT_LSR, SR_X, SR_CCR, 1, false, 2⟩),
  (0o1160, 0o1167, ⟨some EMIT_ROXR, SR_X, SR_CCR, 1, false, 2⟩),
  (0o1170, 0o1177, ⟨some EMIT_ROR, 0, SR_NZVC, 1, false, 2⟩)
]

def rangeInits1 : List (Nat × Nat × OpcodeDef) := [
  (0o1200, 0o1207, ⟨some EMIT_ASR, SR_X, SR_CCR, 1, false, 4⟩),
  (0o1210, 0o1217, ⟨some EMIT_LSR, SR_X, SR_CCR, 1, false, 4⟩),
  (0o1220, 0o1227, ⟨some EMIT_ROXR, SR_X, SR_CCR, 1, false, 4⟩),
  (0o1230, 0o1237, ⟨some EMIT_ROR, 0, SR_NZVC, 1, false, 4⟩),
  (0o1240, 0o1247, ⟨some EMIT_ASR, SR_X, SR_CCR, 1, false, 4⟩),
  (0o1250, 0o1257, ⟨some EMIT_LSR, SR_X, SR_CCR, 1, false, 4⟩),
  (0o1260, 0o1267, ⟨some EMIT_ROXR, SR_X, SR_CCR, 1, false, 4⟩),
  (0o1270, 0o1277, ⟨some EMIT_ROR, 0, SR_NZVC, 1, false, 4⟩),
  (0o2000, 0o2007, ⟨some EMIT_ASR, SR_X, SR_CCR, 1, false, 1⟩),
  (0o2010, 0o2017, ⟨some EMIT_LSR, SR_X, SR_CCR, 1, false, 1⟩),
  (0o2020, 0o2027, ⟨some EMIT_ROXR, SR_X, SR_CCR, 1, false, 1⟩),
  (0o2030, 0o2037, ⟨some EMIT_ROR, 0, SR_NZVC, 1, false, 1⟩),
  (0o2040, 0o2047, ⟨some EMIT_ASR, SR_X, SR_CCR, 1, false, 1⟩),
  (0o2050, 0o2057, ⟨some EMIT_LSR, SR_X, SR_CCR, 1, false, 1⟩),
  (0o2060, 0o2067, ⟨some EMIT_ROXR, SR_X, SR_CCR, 1, false, 1⟩),
  (0o2070, 0o2077, ⟨some EMIT_ROR, 0, SR_NZVC, 1, false, 1⟩),
  (0o2100, 0o2107, ⟨some EMIT_ASR, SR_X, SR_CCR, 1, false, 2⟩),
  (0o2110, 0o2117, ⟨some EMIT_LSR, SR_X, SR_CCR, 1, false, 2⟩),
  (0o2120, 0o2127, ⟨some EMIT_ROXR, SR_X, SR_CCR, 1, false, 2⟩),
  (0o2130, 0o2137, ⟨some EMIT_ROR, 0, SR_NZVC, 1, false, 2⟩),
  (0o2140, 0o2147, ⟨some EMIT_ASR, SR_X, SR_CCR, 1, false, 2⟩),
  (0o2150, 0o2157, ⟨some EMIT_LSR, SR_X, SR_CCR, 1, false, 2⟩),
  (0o2160, 0o2167, ⟨some EMIT_ROXR, SR_X, SR_CCR, 1, false, 2⟩),
  (0o2170, 0o2177, ⟨some EMIT_ROR, 0, SR_NZVC, 1, false, 2⟩),
  (0o2200, 0o2207, ⟨some EMIT_ASR, SR_X, SR_CCR, 1, false, 4⟩),
  (0o2210, 0o2217, ⟨some EMIT_LSR, SR_X, SR_CCR, 1, false, 4⟩),
  (0o2220, 0o2227, ⟨some EMIT_ROXR, SR_X, SR_CCR, 1, false, 4⟩),
  (0o2230, 0o2237, ⟨some EMIT_ROR, 0, SR_NZVC, 1, false, 4⟩),
  (0o2240, 0o2247, ⟨some EMIT_ASR, SR_X, SR_CCR, 1, false, 4⟩),
  (0o2250, 0o2257, ⟨some EMIT_LSR, SR_X, SR_CCR, 1, false, 4⟩),
  (0o2260, 0o2267, ⟨some EMIT_ROXR, SR_X, SR_CCR, 1, false, 4⟩),
  (0o2270, 0o2277, ⟨some EMIT_ROR, 0, SR_NZVC, 1, false, 4⟩),
  (0o3000, 0o3007, ⟨some EMIT_ASR, SR_X, SR_CCR, 1, false, 1⟩),
  (0o3010, 0o3017, ⟨some EMIT_LSR, SR_X, SR_CCR, 1, false, 1⟩),
  (0o3020, 0o3027, ⟨some EMIT_ROXR, SR_X, SR_CCR, 1, false, 1⟩),
  (0o3030, 0o3037, ⟨some EMIT_ROR, 0, SR_NZVC, 1, false, 1⟩),
  (0o3040, 0o3047, ⟨some EMIT_ASR, SR_X, SR_CCR, 1, false, 1⟩),
  (0o3050, 0o3057, ⟨some EMIT_LSR, SR_X, SR_CCR, 1, false, 1⟩),
  (0o3060, 0o3067, ⟨some EMIT_ROXR, SR_X, SR_CCR, 1, false, 1⟩),
  (0o3070, 0o3077, ⟨some EMIT_ROR, 0, SR_NZVC, 1, false, 1⟩)
]

def rangeInits2 : List (Nat × Nat × OpcodeDef) := [
  (0o3100, 0o3107, ⟨some EMIT_ASR, SR_X, SR_CCR, 1, false, 2⟩),
  (0o3110, 0o3117, ⟨some EMIT_LSR, SR_X, SR_CCR, 1, false, 2⟩),
  (0o3120, 0o3127, ⟨some EMIT_ROXR, SR_X, SR_CCR, 1, false, 2⟩),
  (0o3130, 0o3137, ⟨some EMIT_ROR, 0, SR_NZVC, 1, false, 2⟩),
  (0o3140, 0o3147, ⟨some EMIT_ASR, SR_X, SR_CCR, 1, false, 2⟩),
  (0o3150, 0o3157, ⟨some EMIT_LSR, SR_X, SR_CCR, 1, false, 2⟩),
  (0o3160, 0o3167, ⟨some EMIT_ROXR, SR_X, SR_CCR, 1, false, 2⟩),
  (0o3170, 0o3177, ⟨some EMIT_ROR, 0, SR_NZVC, 1, false, 2⟩),
  (0o3200, 0o3207, ⟨some EMIT_ASR, SR_X, SR_CCR, 1, false, 4⟩),
  (0o3210, 0o3217, ⟨some EMIT_LSR, SR_X, SR_CCR, 1, false, 4⟩),
  (0o3220, 0o3227, ⟨some EMIT_ROXR, SR_X, SR_CCR, 1, false, 4⟩),
  (0o3230, 0o3237, ⟨some EMIT_ROR, 0, SR_NZVC, 1, false, 4⟩),
  (0o3240, 0o3247, ⟨some EMIT_ASR, SR_X, SR_CCR, 1, false, 4⟩),
  (0o3250, 0o3257, ⟨some EMIT_LSR, SR_X, SR_CCR, 1, false, 4⟩),
  (0o3260, 0o3267, ⟨some EMIT_ROXR, SR_X, SR_CCR, 1, false, 4⟩),
  (0o3270, 0o3277, ⟨some EMIT_ROR, 0, SR_NZVC, 1, false, 4⟩),
  (0o4000, 0o4007, ⟨some EMIT_ASR, SR_X, SR_CCR, 1, false, 1⟩),
  (0o4010, 0o4017, ⟨some EMIT_LSR, SR_X, SR_CCR, 1, false, 1⟩),
  (0o4020, 0o4027, ⟨some EMIT_ROXR, SR_X, SR_CCR, 1, false, 1⟩),
  (0o4030, 0o4037, ⟨some EMIT_ROR, 0, SR_NZVC, 1, false, 1⟩),
  (0o4040, 0o4047, ⟨some EMIT_ASR, SR_X, SR_CCR, 1, false, 1⟩),
  (0o4050, 0o4057, ⟨some EMIT_LSR, SR_X, SR_CCR, 1, false, 1⟩),
  (0o4060, 0o4067, ⟨some EMIT_ROXR, SR_X, SR_CCR, 1, false, 1⟩),
  (0o4070, 0o4077, ⟨some EMIT_ROR, 0, SR_NZVC, 1, false, 1⟩),
  (0o4100, 0o4107, ⟨some EMIT_ASR, SR_X, SR_CCR, 1, false, 2⟩),
  (0o4110, 0o4117, ⟨some EMIT_LSR, SR_X, SR_CCR, 1, false, 2⟩),
  (0o4120, 0o4127, ⟨some EMIT_ROXR, SR_X, SR_CCR, 1, false, 2⟩),
  (0o4130, 0o4137, ⟨some EMIT_ROR, 0, SR_NZVC, 1, false, 2⟩),
  (0o4140, 0o4147, ⟨some EMIT_ASR, SR_X, SR_CCR, 1, false, 2⟩),
  (0o4150, 0o4157, ⟨some EMIT_LSR, SR_X, SR_CCR, 1, false, 2⟩),
  (0o4160, 0o4167, ⟨some EMIT_ROXR, SR_X, SR_CCR, 1, false, 2⟩),
  (0o4170, 0o4177, ⟨some EMIT_ROR, 0, SR_NZVC, 1, false, 2⟩),
  (0o4200, 0o4207, ⟨some EMIT_ASR, SR_X, SR_CCR, 1, false, 4⟩),
  (0o4210, 0o4217, ⟨some EMIT_LSR, SR_X, SR_CCR, 1, false, 4⟩),
  (0o4220, 0o4227, ⟨some EMIT_ROXR, SR_X, SR_CCR, 1, false, 4⟩),
  (0o4230, 0o4237, ⟨some EMIT_ROR, 0, SR_NZVC, 1, false, 4⟩),
  (0o4240, 0o4247, ⟨some EMIT_ASR, SR_X, SR_CCR, 1, false, 4⟩),
  (0o4250, 0o4257, ⟨some EMIT_LSR, SR_X, SR_CCR, 1, false, 4⟩),
  (0o4260, 0o4267, ⟨some EMIT_ROXR, SR_X, SR_CCR, 1, false, 4⟩),
  (0o4270, 0o4277, ⟨some EMIT_ROR, 0, SR_NZVC, 1, false, 4⟩)
]

def rangeInits3 : List (Nat × Nat × OpcodeDef) := [
  (0o5000, 0o5007, ⟨some EMIT_ASR, SR_X, SR_CCR, 1, false, 1⟩),
  (0o5010, 0o5017, ⟨some EMIT_LSR, SR_X, SR_CCR, 1, false, 1⟩),
  (0o5020, 0o5027, ⟨some EMIT_ROXR, SR_X, SR_CCR, 1, false, 1⟩),
  (0o5030, 0o5037, ⟨some EMIT_ROR, 0, SR_NZVC, 1, false, 1⟩),
  (0o5040, 0o5047, ⟨some EMIT_ASR, SR_X, SR_CCR, 1, false, 1⟩),
  (0o5050, 0o5057, ⟨some EMIT_LSR, SR_X, SR_CCR, 1, false, 1⟩),
  (0o5060, 0o5067, ⟨some EMIT_ROXR, SR_X, SR_CCR, 1, false, 1⟩),
  (0o5070, 0o5077, ⟨some EMIT_ROR, 0, SR_NZVC, 1, false, 1⟩),
  (0o5100, 0o5107, ⟨some EMIT_ASR, SR_X, SR_CCR, 1, false, 2⟩),
  (0o5110, 0o5117, ⟨some EMIT_LSR, SR_X, SR_CCR, 1, false, 2⟩),
  (0o5120, 0o5127, ⟨some EMIT_ROXR, SR_X, SR_CCR, 1, false, 2⟩),
  (0o5130, 0o5137, ⟨some EMIT_ROR, 0, SR_NZVC, 1, false, 2⟩),
  (0o5140, 0o5147, ⟨some EMIT_ASR, SR_X, SR_CCR, 1, false, 2⟩),
  (0o5150, 0o5157, ⟨some EMIT_LSR, SR_X, SR_CCR, 1, false, 2⟩),
  (0o5160, 0o5167, ⟨some EMIT_ROXR, SR_X, SR_CCR, 1, false, 2⟩),
  (0o5170, 0o5177, ⟨some EMIT_ROR, 0, SR_NZVC, 1, false, 2⟩),
  (0o5200, 0o5207, ⟨some EMIT_ASR, SR_X, SR_CCR, 1, false, 4⟩),
  (0o5210, 0o5217, ⟨some EMIT_LSR, SR_X, SR_CCR, 1, false, 4⟩),
  (0o5220, 0o5227, ⟨some EMIT_ROXR, SR_X, SR_CCR, 1, false, 4⟩),
  (0o5230, 0o5237, ⟨some EMIT_ROR, 0, SR_NZVC, 1, false, 4⟩),
  (0o5240, 0o5247, ⟨some EMIT_ASR, SR_X, SR_CCR, 1, false, 4⟩),
  (0o5250, 0o5257, ⟨some EMIT_LSR, SR_X, SR_CCR, 1, false, 4⟩),
  (0o5260, 0o5267, ⟨some EMIT_ROXR, SR_X, SR_CCR, 1, false, 4⟩),
  (0o5270, 0o5277, ⟨some EMIT_ROR, 0, SR_NZVC, 1, false, 4⟩),
  (0o6000, 0o6007, ⟨some EMIT_ASR, SR_X, SR_CCR, 1, false, 1⟩),
  (0o6010, 0o6017, ⟨some EMIT_LSR, SR_X, SR_CCR, 1, false, 1⟩),
  (0o6020, 0o6027, ⟨some EMIT_ROXR, SR_X, SR_CCR, 1, false, 1⟩),
  (0o6030, 0o6037, ⟨some EMIT_ROR, 0, SR_NZVC, 1, false, 1⟩),
  (0o6040, 0o6047, ⟨some EMIT_ASR, SR_X, SR_CCR, 1, false, 1⟩),
  (0o6050, 0o6057, ⟨some EMIT_LSR, SR_X, SR_CCR, 1, false, 1⟩),
  (0o6060, 0o6067, ⟨some EMIT_ROXR, SR_X, SR_CCR, 1, false, 1⟩),
  (0o6070, 0o6077, ⟨some EMIT_ROR, 0, SR_NZVC, 1, false, 1⟩),
  (0o6100, 0o6107, ⟨some EMIT_ASR, SR_X, SR_CCR, 1, false, 2⟩),
  (0o6110, 0o6117, ⟨some EMIT_LSR, SR_X, SR_CCR, 1, false, 2⟩),
  (0o6120, 0o6127, ⟨some EMIT_ROXR, SR_X, SR_CCR, 1, false, 2⟩),
  (0o6130, 0o6137, ⟨some EMIT_ROR, 0, SR_NZVC, 1, false, 2⟩),
  (0o6140, 0o6147, ⟨some EMIT_ASR, SR_X, SR_CCR, 1, false, 2⟩),
  (0o6150, 0o6157, ⟨some EMIT_LSR, SR_X, SR_CCR, 1, false, 2⟩),
  (0o6160, 0o6167, ⟨some EMIT_ROXR, SR_X, SR_CCR, 1, false, 2⟩),
  (0o6170, 0o6177, ⟨some EMIT_ROR, 0, SR_NZVC, 1, false, 2⟩)
]

def rangeInits4 : List (Nat × Nat × OpcodeDef) := [
  (0o6200, 0o6207, ⟨some EMIT_ASR, SR_X, SR_CCR, 1, false, 4⟩),
  (0o6210, 0o6217, ⟨some EMIT_LSR, SR_X, SR_CCR, 1, false, 4⟩),
  (0o6220, 0o6227, ⟨some EMIT_ROXR, SR_X, SR_CCR, 1, false, 4⟩),
  (0o6230, 0o6237, ⟨some EMIT_ROR, 0, SR_NZVC, 1, false, 4⟩),
  (0o6240, 0o6247, ⟨some EMIT_ASR, SR_X, SR_CCR, 1, false, 4⟩),
  (0o6250, 0o6257, ⟨some EMIT_LSR, SR_X, SR_CCR, 1, false, 4⟩),
  (0o6260, 0o6267, ⟨some EMIT_ROXR, SR_X, SR_CCR, 1, false, 4⟩),
  (0o6270, 0o6277, ⟨some EMIT_ROR, 0, SR_NZVC, 1, false, 4⟩),
  (0o7000, 0o7007, ⟨some EMIT_ASR, SR_X, SR_CCR, 1, false, 1⟩),
  (0o7010, 0o7017, ⟨some EMIT_LSR, SR_X, SR_CCR, 1, false, 1⟩),
  (0o7020, 0o7027, ⟨some EMIT_ROXR, SR_X, SR_CCR, 1, false, 1⟩),
  (0o7030, 0o7037, ⟨some EMIT_ROR, 0, SR_NZVC, 1, false, 1⟩),
  (0o7040, 0o7047, ⟨some EMIT_ASR, SR_X, SR_CCR, 1, false, 1⟩),
  (0o7050, 0o7057, ⟨some EMIT_LSR, SR_X, SR_CCR, 1, false, 1⟩),
  (0o7060, 0o7067, ⟨some EMIT_ROXR, SR_X, SR_CCR, 1, false, 1⟩),
  (0o7070, 0o7077, ⟨some EMIT_ROR, 0, SR_NZVC, 1, false, 1⟩),
  (0o7100, 0o7107, ⟨some EMIT_ASR, SR_X, SR_CCR, 1, false, 2⟩),
  (0o7110, 0o7117, ⟨some EMIT_LSR, SR_X, SR_CCR, 1, false, 2⟩),
  (0o7120, 0o7127, ⟨some EMIT_ROXR, SR_X, SR_CCR, 1, false, 2⟩),
  (0o7130, 0o7137, ⟨some EMIT_ROR, 0, SR_NZVC, 1, false, 2⟩),
  (0o7140, 0o7147, ⟨some EMIT_ASR, SR_X, SR_CCR, 1, false, 2⟩),
  (0o7150, 0o7157, ⟨some EMIT_LSR, SR_X, SR_CCR, 1, false, 2⟩),
  (0o7160, 0o7167, ⟨some EMIT_ROXR, SR_X, SR_CCR, 1, false, 2⟩),
  (0o7170, 0o7177, ⟨some EMIT_ROR, 0, SR_NZVC, 1, false, 2⟩),
  (0o7200, 0o7207, ⟨some EMIT_ASR, SR_X, SR_CCR, 1, false, 4⟩),
  (0o7210, 0o7217, ⟨some EMIT_LSR, SR_X, SR_CCR, 1, false, 4⟩),
  (0o7220, 0o7227, ⟨some EMIT_ROXR, SR_X, SR_CCR, 1, false, 4⟩),
  (0o7230, 0o7237, ⟨some EMIT_ROR, 0, SR_NZVC, 1, false, 4⟩),
  (0o7240, 0o7247, ⟨some EMIT_ASR, SR_X, SR_CCR, 1, false, 4⟩),
  (0o7250, 0o7257, ⟨some EMIT_LSR, SR_X, SR_CCR, 1, false, 4⟩),
  (0o7260, 0o7267, ⟨some EMIT_ROXR, SR_X, SR_CCR, 1, false, 4⟩),
  (0o7270, 0o7277, ⟨some EMIT_ROR, 0, SR_NZVC, 1, false, 4⟩),
  (0o0320, 0o0371, ⟨some EMIT_ASR_mem, SR_X, SR_CCR, 1, true, 2⟩),
  (0o1320, 0o1371, ⟨some EMIT_LSR_mem, SR_X, SR_CCR, 1, true, 2⟩),
  (0o2320, 0o2371, ⟨some EMIT_ROXR_mem, SR_X, SR_CCR, 1, true, 2⟩),
  (0o3320, 0o3371, ⟨some EMIT_ROR_mem, 0, SR_NZVC, 1, true, 2⟩),
  (0o0400, 0o0407, ⟨some EMIT_ASL, SR_X, SR_CCR, 1, false, 1⟩),
  (0o0410, 0o0417, ⟨some EMIT_LSL, SR_X, SR_CCR, 1, false, 1⟩),
  (0o0420, 0o0427, ⟨some EMIT_ROXL, SR_X, SR_CCR, 1, false, 1⟩),
  (0o0430, 0o0437, ⟨some EMIT_ROL, 0, SR_NZVC, 1, false, 1⟩)
]

def rangeInits5 : List (Nat × Nat × OpcodeDef) := [
  (0o0440, 0o0447, ⟨some EMIT_ASL, SR_X, SR_CCR, 1, false, 1⟩),
  (0o0450, 0o0457, ⟨some EMIT_LSL, SR_X, SR_CCR, 1, false, 1⟩),
  (0o0460, 0o0467, ⟨some EMIT_ROXL, SR_X, SR_CCR, 1, false, 1⟩),
  (0o0470, 0o0477, ⟨some EMIT_ROL, 0, SR_NZVC, 1, false, 1⟩),
  (0o0500, 0o0507, ⟨some EMIT_ASL, SR_X, SR_CCR, 1, false, 2⟩),
  (0o0510, 0o0517, ⟨some EMIT_LSL, SR_X, SR_CCR, 1, false, 2⟩),
  (0o0520, 0o0527, ⟨some EMIT_ROXL, SR_X, SR_CCR, 1, false, 2⟩),
  (0o0530, 0o0537, ⟨some EMIT_ROL, 0, SR_NZVC, 1, false, 2⟩),
  (0o0540, 0o0547, ⟨some EMIT_ASL, SR_X, SR_CCR, 1, false, 2⟩),
  (0o0550, 0o0557, ⟨some EMIT_LSL, SR_X, SR_CCR, 1, false, 2⟩),
  (0o0560, 0o0567, ⟨some EMIT_ROXL, SR_X, SR_CCR, 1, false, 2⟩),
  (0o0570, 0o0577, ⟨some EMIT_ROL, 0, SR_NZVC, 1, false, 2⟩),
  (0o0600, 0o0607, ⟨some EMIT_ASL, SR_X, SR_CCR, 1, false, 4⟩),
  (0o0610, 0o0617, ⟨some EMIT_LSL, SR_X, SR_CCR, 1, false, 4⟩),
  (0o0620, 0o0627, ⟨some EMIT_ROXL, SR_X, SR_CCR, 1, false, 4⟩),
  (0o0630, 0o0637, ⟨some EMIT_ROL, 0, SR_NZVC, 1, false, 4⟩),
  (0o0640, 0o0647, ⟨some EMIT_ASL, SR_X, SR_CCR, 1, false, 4⟩),
  (0o0650, 0o0657, ⟨some EMIT_LSL, SR_X, SR_CCR, 1, false, 4⟩),
  (0o0660, 0o0667, ⟨some EMIT_ROXL, SR_X, SR_CCR, 1, false, 4⟩),
  (0o0670, 0o0677, ⟨some EMIT_ROL, 0, SR_NZVC, 1, false, 4⟩),
  (0o1400, 0o1407, ⟨some EMIT_ASL, SR_X, SR_CCR, 1, false, 1⟩),
  (0o1410, 0o1417, ⟨some EMIT_LSL, SR_X, SR_CCR, 1, false, 1⟩),
  (0o1420, 0o1427, ⟨some EMIT_ROXL, SR_X, SR_CCR, 1, false, 1⟩),
  (0o1430, 0o1437, ⟨some EMIT_ROL, 0, SR_NZVC, 1, false, 1⟩),
  (0o1440, 0o1447, ⟨some EMIT_ASL, SR_X, SR_CCR, 1, false, 1⟩),
  (0o1450, 0o1457, ⟨some EMIT_LSL, SR_X, SR_CCR, 1, false, 1⟩),
  (0o1460, 0o1467, ⟨some EMIT_ROXL, SR_X, SR_CCR, 1, false, 1⟩),
  (0o1470, 0o1477, ⟨some EMIT_ROL, 0, SR_NZVC, 1, false, 1⟩),
  (0o1500, 0o1507, ⟨some EMIT_ASL, SR_X, SR_CCR, 1, false, 2⟩),
  (0o1510, 0o1517, ⟨some EMIT_LSL, SR_X, SR_CCR, 1, false, 2⟩),
  (0o1520, 0o1527, ⟨some EMIT_ROXL, SR_X, SR_CCR, 1, false, 2⟩),
  (0o1530, 0o1537, ⟨some EMIT_ROL, 0, SR_NZVC, 1, false, 2⟩),
  (0o1540, 0o1547, ⟨some EMIT_ASL, SR_X, SR_CCR, 1, false, 2⟩),
  (0o1550, 0o1557, ⟨some EMIT_LSL, SR_X, SR_CCR, 1, false, 2⟩),
  (0o1560, 0o1567, ⟨some EMIT_ROXL, SR_X, SR_CCR, 1, false, 2⟩),
  (0o1570, 0o1577, ⟨some EMIT_ROL, 0, SR_NZVC, 1, false, 2⟩),
  (0o1600, 0o1607, ⟨some EMIT_ASL, SR_X, SR_CCR, 1, false, 4⟩),
  (0o1610, 0o1617, ⟨some EMIT_LSL, SR_X, SR_CCR, 1, false, 4⟩),
  (0o1620, 0o1627, ⟨some EMIT_ROXL, SR_X, SR_CCR, 1, false, 4⟩),
  (0o1630, 0o1637, ⟨some EMIT_ROL, 0, SR_NZVC, 1, false, 4⟩)
]

def rangeInits6 : List (Nat × Nat × OpcodeDef) := [
  (0o1640, 0o1647, ⟨some EMIT_ASL, SR_X, SR_CCR, 1, false, 4⟩),
  (0o1650, 0o1657, ⟨some EMIT_LSL, SR_X, SR_CCR, 1, false, 4⟩),
  (0o1660, 0o1667, ⟨some EMIT_ROXL, SR_X, SR_CCR, 1, false, 4⟩),
  (0o1670, 0o1677, ⟨some EMIT_ROL, 0, SR_NZVC, 1, false, 4⟩),
  (0o2400, 0o2407, ⟨some EMIT_ASL, SR_X, SR_CCR, 1, false, 1⟩),
  (0o2410, 0o2417, ⟨some EMIT_LSL, SR_X, SR_CCR, 1, false, 1⟩),
  (0o2420, 0o2427, ⟨some EMIT_ROXL, SR_X, SR_CCR, 1, false, 1⟩),
  (0o2430, 0o2437, ⟨some EMIT_ROL, 0, SR_NZVC, 1, false, 1⟩),
  (0o2440, 0o2447, ⟨some EMIT_ASL, SR_X, SR_CCR, 1, false, 1⟩),
  (0o2450, 0o2457, ⟨some EMIT_LSL, SR_X, SR_CCR, 1, false, 1⟩),
  (0o2460, 0o2467, ⟨some EMIT_ROXL, SR_X, SR_CCR, 1, false, 1⟩),
  (0o2470, 0o2477, ⟨some EMIT_ROL, 0, SR_NZVC, 1, false, 1⟩),
  (0o2500, 0o2507, ⟨some EMIT_ASL, SR_X, SR_CCR, 1, false, 2⟩),
  (0o2510, 0o2517, ⟨some EMIT_LSL, SR_X, SR_CCR, 1, false, 2⟩),
  (0o2520, 0o2527, ⟨some EMIT_ROXL, SR_X, SR_CCR, 1, false, 2⟩),
  (0o2530, 0o2537, ⟨some EMIT_ROL, 0, SR_NZVC, 1, false, 2⟩),
  (0o2540, 0o2547, ⟨some EMIT_ASL, SR_X, SR_CCR, 1, false, 2⟩),
  (0o2550, 0o2557, ⟨some EMIT_LSL, SR_X, SR_CCR, 1, false, 2⟩),
  (0o2560, 0o2567, ⟨some EMIT_ROXL, SR_X, SR_CCR, 1, false, 2⟩),
  (0o2570, 0o2577, ⟨some EMIT_ROL, 0, SR_NZVC, 1, false, 2⟩),
  (0o2600, 0o2607, ⟨some EMIT_ASL, SR_X, SR_CCR, 1, false, 4⟩),
  (0o2610, 0o2617, ⟨some EMIT_LSL, SR_X, SR_CCR, 1, false, 4⟩),
  (0o2620, 0o2627, ⟨some EMIT_ROXL, SR_X, SR_CCR, 1, false, 4⟩),
  (0o2630, 0o2637, ⟨some EMIT_ROL, 0, SR_NZVC, 1, false, 4⟩),
  (0o2640, 0o2647, ⟨some EMIT_ASL, SR_X, SR_CCR, 1, false, 4⟩),
  (0o2650, 0o2657, ⟨some EMIT_LSL, SR_X, SR_CCR, 1, false, 4⟩),
  (0o2660, 0o2667, ⟨some EMIT_ROXL, SR_X, SR_CCR, 1, false, 4⟩),
  (0o2670, 0o2677, ⟨some EMIT_ROL, 0, SR_NZVC, 1, false, 4⟩),
  (0o3400, 0o3407, ⟨some EMIT_ASL, SR_X, SR_CCR, 1, false, 1⟩),
  (0o3410, 0o3417, ⟨some EMIT_LSL, SR_X, SR_CCR, 1, false, 1⟩),
  (0o3420, 0o3427, ⟨some EMIT_ROXL, SR_X, SR_CCR, 1, false, 1⟩),
  (0o3430, 0o3437, ⟨some EMIT_ROL, 0, SR_NZVC, 1, false, 1⟩),
  (0o3440, 0o3447, ⟨some EMIT_ASL, SR_X, SR_CCR, 1, false, 1⟩),
  (0o3450, 0o3457, ⟨some EMIT_LSL, SR_X, SR_CCR, 1, false, 1⟩),
  (0o3460, 0o3467, ⟨some EMIT_ROXL, SR_X, SR_CCR, 1, false, 1⟩),
  (0o3470, 0o3477, ⟨some EMIT_ROL, 0, SR_NZVC, 1, false, 1⟩),
  (0o3500, 0o3507, ⟨some EMIT_ASL, SR_X, SR_CCR, 1, false, 2⟩),
  (0o3510, 0o3517, ⟨some EMIT_LSL, SR_X, SR_CCR, 1, false, 2⟩),
  (0o3520, 0o3527, ⟨some EMIT_ROXL, SR_X, SR_CCR, 1, false, 2⟩),
  (0o3530, 0o3537, ⟨some EMIT_ROL, 0, SR_NZVC, 1, false, 2⟩)
]

def rangeInits7 : List (Nat × Nat × OpcodeDef) := [
  (0o3540, 0o3547, ⟨some EMIT_ASL, SR_X, SR_CCR, 1, false, 2⟩),
  (0o3550, 0o3557, ⟨some EMIT_LSL, SR_X, SR_CCR, 1, false, 2⟩),
  (0o3560, 0o3567, ⟨some EMIT_ROXL, SR_X, SR_CCR, 1, false, 2⟩),
  (0o3570, 0o3577, ⟨some EMIT_ROL, 0, SR_NZVC, 1, false, 2⟩),
  (0o3600, 0o3607, ⟨some EMIT_ASL, SR_X, SR_CCR, 1, false, 4⟩),
  (0o3610, 0o3617, ⟨some EMIT_LSL, SR_X, SR_CCR, 1, false, 4⟩),
  (0o3620, 0o3627, ⟨some EMIT_ROXL, SR_X, SR_CCR, 1, false, 4⟩),
  (0o3630, 0o3637, ⟨some EMIT_ROL, 0, SR_NZVC, 1, false, 4⟩),
  (0o3640, 0o3647, ⟨some EMIT_ASL, SR_X, SR_CCR, 1, false, 4⟩),
  (0o3650, 0o3657, ⟨some EMIT_LSL, SR_X, SR_CCR, 1, false, 4⟩),
  (0o3660, 0o3667, ⟨some EMIT_ROXL, SR_X, SR_CCR, 1, false, 4⟩),
  (0o3670, 0o3677, ⟨some EMIT_ROL, 0, SR_NZVC, 1, false, 4⟩),
  (0o4400, 0o4407, ⟨some EMIT_ASL, SR_X, SR_CCR, 1, false, 1⟩),
  (0o4410, 0o4417, ⟨some EMIT_LSL, SR_X, SR_CCR, 1, false, 1⟩),
  (0o4420, 0o4427, ⟨some EMIT_ROXL, SR_X, SR_CCR, 1, false, 1⟩),
  (0o4430, 0o4437, ⟨some EMIT_ROL, 0, SR_NZVC, 1, false, 1⟩),
  (0o4440, 0o4447, ⟨some EMIT_ASL, SR_X, SR_CCR, 1, false, 1⟩),
  (0o4450, 0o4457, ⟨some EMIT_LSL, SR_X, SR_CCR, 1, false, 1⟩),
  (0o4460, 0o4467, ⟨some EMIT_ROXL, SR_X, SR_CCR, 1, false, 1⟩),
  (0o4470, 0o4477, ⟨some EMIT_ROL, 0, SR_NZVC, 1, false, 1⟩),
  (0o4500, 0o4507, ⟨some EMIT_ASL, SR_X, SR_CCR, 1, false, 2⟩),
  (0o4510, 0o4517, ⟨some EMIT_LSL, SR_X, SR_CCR, 1, false, 2⟩),
  (0o4520, 0o4527, ⟨some EMIT_ROXL, SR_X, SR_CCR, 1, false, 2⟩),
  (0o4530, 0o4537, ⟨some EMIT_ROL, 0, SR_NZVC, 1, false, 2⟩),
  (0o4540, 0o4547, ⟨some EMIT_ASL, SR_X, SR_CCR, 1, false, 2⟩),
  (0o4550, 0o4557, ⟨some EMIT_LSL, SR_X, SR_CCR, 1, false, 2⟩),
  (0o4560, 0o4567, ⟨some EMIT_ROXL, SR_X, SR_CCR, 1, false, 2⟩),
  (0o4570, 0o4577, ⟨some EMIT_ROL, 0, SR_NZVC, 1, false, 2⟩),
  (0o4600, 0o4607, ⟨some EMIT_ASL, SR_X, SR_CCR, 1, false, 4⟩),
  (0o4610, 0o4617, ⟨some EMIT_LSL, SR_X, SR_CCR, 1, false, 4⟩),
  (0o4620, 0o4627, ⟨some EMIT_ROXL, SR_X, SR_CCR, 1, false, 4⟩),
  (0o4630, 0o4637, ⟨some EMIT_ROL, 0, SR_NZVC, 1, false, 4⟩),
  (0o4640, 0o4647, ⟨some EMIT_ASL, SR_X, SR_CCR, 1, false, 4⟩),
  (0o4650, 0o4657, ⟨some EMIT_LSL, SR_X, SR_CCR, 1, false, 4⟩),
  (0o4660, 0o4667, ⟨some EMIT_ROXL, SR_X, SR_CCR, 1, false, 4⟩),
  (0o4670, 0o4677, ⟨some EMIT_ROL, 0, SR_NZVC, 1, false, 4⟩),
  (0o5400, 0o5407, ⟨some EMIT_ASL, SR_X, SR_CCR, 1, false, 1⟩),
  (0o5410, 0o5417, ⟨some EMIT_LSL, SR_X, SR_CCR, 1, false, 1⟩),
  (0o5420, 0o5427, ⟨some EMIT_ROXL, SR_X, SR_CCR, 1, false, 1⟩),
  (0o5430, 0o5437, ⟨some EMIT_ROL, 0, SR_NZVC, 1, false, 1⟩)
]

def rangeInits8 : List (Nat × Nat × OpcodeDef) := [
  (0o5440, 0o5447, ⟨some EMIT_ASL, SR_X, SR_CCR, 1, false, 1⟩),
  (0o5450, 0o5457, ⟨some EMIT_LSL, SR_X, SR_CCR, 1, false, 1⟩),
  (0o5460, 0o5467, ⟨some EMIT_ROXL, SR_X, SR_CCR, 1, false, 1⟩),
  (0o5470, 0o5477, ⟨some EMIT_ROL, 0, SR_NZVC, 1, false, 1⟩),
  (0o5500, 0o5507, ⟨some EMIT_ASL, SR_X, SR_CCR, 1, false, 2⟩),
  (0o5510, 0o5517, ⟨some EMIT_LSL, SR_X, SR_CCR, 1, false, 2⟩),
  (0o5520, 0o5527, ⟨some EMIT_ROXL, SR_X, SR_CCR, 1, false, 2⟩),
  (0o5530, 0o5537, ⟨some EMIT_ROL, 0, SR_NZVC, 1, false, 2⟩),
  (0o5540, 0o5547, ⟨some EMIT_ASL, SR_X, SR_CCR, 1, false, 2⟩),
  (0o5550, 0o5557, ⟨some EMIT_LSL, SR_X, SR_CCR, 1, false, 2⟩),
  (0o5560, 0o5567, ⟨some EMIT_ROXL, SR_X, SR_CCR, 1, false, 2⟩),
  (0o5570, 0o5577, ⟨some EMIT_ROL, 0, SR_NZVC, 1, false, 2⟩),
  (0o5600, 0o5607, ⟨some EMIT_ASL, SR_X, SR_CCR, 1, false, 4⟩),
  (0o5610, 0o5617, ⟨some EMIT_LSL, SR_X, SR_CCR, 1, false, 4⟩),
  (0o5620, 0o5627, ⟨some EMIT_ROXL, SR_X, SR_CCR, 1, false, 4⟩),
  (0o5630, 0o5637, ⟨some EMIT_ROL, 0, SR_NZVC, 1, false, 4⟩),
  (0o5640, 0o5647, ⟨some EMIT_ASL, SR_X, SR_CCR, 1, false, 4⟩),
  (0o5650, 0o5657, ⟨some EMIT_LSL, SR_X, SR_CCR, 1, false, 4⟩),
  (0o5660, 0o5667, ⟨some EMIT_ROXL, SR_X, SR_CCR, 1, false, 4⟩),
  (0o5670, 0o5677, ⟨some EMIT_ROL, 0, SR_NZVC, 1, false, 4⟩),
  (0o6400, 0o6407, ⟨some EMIT_ASL, SR_X, SR_CCR, 1, false, 1⟩),
  (0o6410, 0o6417, ⟨some EMIT_LSL, SR_X, SR_CCR, 1, false, 1⟩),
  (0o6420, 0o6427, ⟨some EMIT_ROXL, SR_X, SR_CCR, 1, false, 1⟩),
  (0o6430, 0o6437, ⟨some EMIT_ROL, 0, SR_NZVC, 1, false, 1⟩),
  (0o6440, 0o6447, ⟨some EMIT_ASL, SR_X, SR_CCR, 1, false, 1⟩),
  (0o6450, 0o6457, ⟨some EMIT_LSL, SR_X, SR_CCR, 1, false, 1⟩),
  (0o6460, 0o6467, ⟨some EMIT_ROXL, SR_X, SR_CCR, 1, false, 1⟩),
  (0o6470, 0o6477, ⟨some EMIT_ROL, 0, SR_NZVC, 1, false, 1⟩),
  (0o6500, 0o6507, ⟨some EMIT_ASL, SR_X, SR_CCR, 1, false, 2⟩),
  (0o6510, 0o6517, ⟨some EMIT_LSL, SR_X, SR_CCR, 1, false, 2⟩),
  (0o6520, 0o6527, ⟨some EMIT_ROXL, SR_X, SR_CCR, 1, false, 2⟩),
  (0o6530, 0o6537, ⟨some EMIT_ROL, 0, SR_NZVC, 1, false, 2⟩),
  (0o6540, 0o6547, ⟨some EMIT_ASL, SR_X, SR_CCR, 1, false, 2⟩),
  (0o6550, 0o6557, ⟨some EMIT_LSL, SR_X, SR_CCR, 1, false, 2⟩),
  (0o6560, 0o6567, ⟨some EMIT_ROXL, SR_X, SR_CCR, 1, false, 2⟩),
  (0o6570, 0o6577, ⟨some EMIT_ROL, 0, SR_NZVC, 1, false, 2⟩),
  (0o6600, 0o6607, ⟨some EMIT_ASL, SR_X, SR_CCR, 1, false, 4⟩),
  (0o6610, 0o6617, ⟨some EMIT_LSL, SR_X, SR_CCR, 1, false, 4⟩),
  (0o6620, 0o6627, ⟨some EMIT_ROXL, SR_X, SR_CCR, 1, false, 4⟩),
  (0o6630, 0o6637, ⟨some EMIT_ROL, 0, SR_NZVC, 1, false, 4⟩)
]

def rangeInits9 : List (Nat × Nat × OpcodeDef) := [
  (0o6640, 0o6647, ⟨some EMIT_ASL, SR_X, SR_CCR, 1, false, 4⟩),
  (0o6650, 0o6657, ⟨some EMIT_LSL, SR_X, SR_CCR, 1, false, 4⟩),
  (0o6660, 0o6667, ⟨some EMIT_ROXL, SR_X, SR_CCR, 1, false, 4⟩),
  (0o6670, 0o6677, ⟨some EMIT_ROL, 0, SR_NZVC, 1, false, 4⟩),
  (0o7400, 0o7407, ⟨some EMIT_ASL, SR_X, SR_CCR, 1, false, 1⟩),
  (0o7410, 0o7417, ⟨some EMIT_LSL, SR_X, SR_CCR, 1, false, 1⟩),
  (0o7420, 0o7427, ⟨some EMIT_ROXL, SR_X, SR_CCR, 1, false, 1⟩),
  (0o7430, 0o7437, ⟨some EMIT_ROL, 0, SR_NZVC, 1, false, 1⟩),
  (0o7440, 0o7447, ⟨some EMIT_ASL, SR_X, SR_CCR, 1, false, 1⟩),
  (0o7450, 0o7457, ⟨some EMIT_LSL, SR_X, SR_CCR, 1, false, 1⟩),
  (0o7460, 0o7467, ⟨some EMIT_ROXL, SR_X, SR_CCR, 1, false, 1⟩),
  (0o7470, 0o7477, ⟨some EMIT_ROL, 0, SR_NZVC, 1, false, 1⟩),
  (0o7500, 0o7507, ⟨some EMIT_ASL, SR_X, SR_CCR, 1, false, 2⟩),
  (0o7510, 0o7517, ⟨some EMIT_LSL, SR_X, SR_CCR, 1, false, 2⟩),
  (0o7520, 0o7527, ⟨some EMIT_ROXL, SR_X, SR_CCR, 1, false, 2⟩),
  (0o7530, 0o7537, ⟨some EMIT_ROL, 0, SR_NZVC, 1, false, 2⟩),
  (0o7540, 0o7547, ⟨some EMIT_ASL, SR_X, SR_CCR, 1, false, 2⟩),
  (0o7550, 0o7557, ⟨some EMIT_LSL, SR_X, SR_CCR, 1, false, 2⟩),
  (0o7560, 0o7567, ⟨some EMIT_ROXL, SR_X, SR_CCR, 1, false, 2⟩),
  (0o7570, 0o7577, ⟨some EMIT_ROL, 0, SR_NZVC, 1, false, 2⟩),
  (0o7600, 0o7607, ⟨some EMIT_ASL, SR_X, SR_CCR, 1, false, 4⟩),
  (0o7610, 0o7617, ⟨some EMIT_LSL, SR_X, SR_CCR, 1, false, 4⟩),
  (0o7620, 0o7627, ⟨some EMIT_ROXL, SR_X, SR_CCR, 1, false, 4⟩),
  (0o7630, 0o7637, ⟨some EMIT_ROL, 0, SR_NZVC, 1, false, 4⟩),
  (0o7640, 0o7647, ⟨some EMIT_ASL, SR_X, SR_CCR, 1, false, 4⟩),
  (0o7650, 0o7657, ⟨some EMIT_LSL, SR_X, SR_CCR, 1, false, 4⟩),
  (0o7660, 0o7667, ⟨some EMIT_ROXL, SR_X, SR_CCR, 1, false, 4⟩),
  (0o7670, 0o7677, ⟨some EMIT_ROL, 0, SR_NZVC, 1, false, 4⟩),
  (0o0720, 0o0771, ⟨some EMIT_ASL_mem, SR_X, SR_CCR, 1, true, 2⟩),
  (0o1720, 0o1771, ⟨some EMIT_LSL_mem, SR_X, SR_CCR, 1, true, 2⟩),
  (0o2720, 0o2771, ⟨some EMIT_ROXL_mem, SR_X, SR_CCR, 1, true, 2⟩),
  (0o3720, 0o3771, ⟨some EMIT_ROL_mem, 0, SR_NZVC, 1, true, 2⟩),
  (0o4300, 0o4307, ⟨some EMIT_BFTST, 0, SR_NZVC, 2, false, 0⟩),
  (0o4320, 0o4327, ⟨some EMIT_BFTST, 0, SR_NZVC, 2, false, 0⟩),
  (0o4350, 0o4373, ⟨some EMIT_BFTST, 0, SR_NZVC, 2, true, 0⟩),
  (0o5300, 0o5307, ⟨some EMIT_BFCHG_reg, 0, SR_NZVC, 2, false, 0⟩),
  (0o5320, 0o5327, ⟨some EMIT_BFCHG, 0, SR_NZVC, 2, false, 0⟩),
  (0o5350, 0o5371, ⟨some EMIT_BFCHG, 0, SR_NZVC, 2, true, 0⟩),
  (0o6300, 0o6307, ⟨some EMIT_BFCLR_reg, 0, SR_NZVC, 2, false, 0⟩),
  (0o6320, 0o6327, ⟨some EMIT_BFCLR, 0, SR_NZVC, 2, false, 0⟩)
]

def rangeInits10 : List (Nat × Nat × OpcodeDef) := [
  (0o6350, 0o6371, ⟨some EMIT_BFCLR, 0, SR_NZVC, 2, true, 0⟩),
  (0o7300, 0o7307, ⟨some EMIT_BFSET_reg, 0, SR_NZVC, 2, false, 0⟩),
  (0o7320, 0o7327, ⟨some EMIT_BFSET, 0, SR_NZVC, 2, false, 0⟩),
  (0o7350, 0o7371, ⟨some EMIT_BFSET, 0, SR_NZVC, 2, true, 0⟩),
  (0o4700, 0o4707, ⟨some EMIT_BFEXTU, 0, SR_NZVC, 2, false, 0⟩),
  (0o4720, 0o4727, ⟨some EMIT_BFEXTU, 0, SR_NZVC, 2, false, 0⟩),
  (0o4750, 0o4773, ⟨some EMIT_BFEXTU, 0, SR_NZVC, 2, true, 0⟩),
  (0o5700, 0o5707, ⟨some EMIT_BFEXTS, 0, SR_NZVC, 2, false, 0⟩),
  (0o5720, 0o5727, ⟨some EMIT_BFEXTS, 0, SR_NZVC, 2, false, 0⟩),
  (0o5750, 0o5773, ⟨some EMIT_BFEXTS, 0, SR_NZVC, 2, true, 0⟩),
  (0o6700, 0o6707, ⟨some EMIT_BFFFO_reg, 0, SR_NZVC, 2, false, 0⟩),
  (0o6720, 0o6727, ⟨some EMIT_BFFFO, 0, SR_NZVC, 2, false, 0⟩),
  (0o6750, 0o6773, ⟨some EMIT_BFFFO, 0, SR_NZVC, 2, true, 0⟩),
  (0o7700, 0o7707, ⟨some EMIT_BFINS_reg, 0, SR_NZVC, 2, false, 0⟩),
  (0o7720, 0o7727, ⟨some EMIT_BFINS, 0, SR_NZVC, 2, false, 0⟩),
  (0o7750, 0o7771, ⟨some EMIT_BFINS, 0, SR_NZVC, 2, true, 0⟩)
]

def rangeInits : List (Nat × Nat × OpcodeDef) :=
  rangeInits0 ++ rangeInits1 ++ rangeInits2 ++ rangeInits3 ++ rangeInits4 ++ rangeInits5 ++ rangeInits6 ++ rangeInits7 ++ rangeInits8 ++ rangeInits9 ++ rangeInits10

/-- Covering predicate: index i falls in the range of initializer e. -/
def covers (e : Nat × Nat × OpcodeDef) (i : Nat) : Prop := e.1 ≤ i ∧ i ≤ e.2.1

instance (e : Nat × Nat × OpcodeDef) (i : Nat) : Decidable (covers e i) := by
  unfold covers; infer_instance

def InsnTable (i : Nat) : OpcodeDef :=
  rangeInits.foldl (fun acc e => if e.1 ≤ i ∧ i ≤ e.2.1 then e.2.2 else acc) zeroOpcodeDef

theorem foldl_lookup_mem (L : List (Nat × Nat × OpcodeDef)) (i : Nat) (acc : OpcodeDef) :
    L.foldl (fun acc e => if e.1 ≤ i ∧ i ≤ e.2.1 then e.2.2 else acc) acc = acc ∨
      ∃ e ∈ L, covers e i ∧
        L.foldl (fun acc e => if e.1 ≤ i ∧ i ≤ e.2.1 then e.2.2 else acc) acc = e.2.2 := by
  induction L generalizing acc with
  | nil => exact Or.inl rfl
  | cons x xs ih =>
    simp only [List.foldl_cons]
    by_cases hx : x.1 ≤ i ∧ i ≤ x.2.1
    · rw [if_pos hx]
      rcases ih x.2.2 with h | ⟨e, he, hc, heq⟩
      · exact Or.inr ⟨x, List.mem_cons_self x xs, hx, h⟩
      · exact Or.inr ⟨e, List.mem_cons_of_mem x he, hc, heq⟩
    · rw [if_neg hx]
      rcases ih acc with h | ⟨e, he, hc, heq⟩
      · exact Or.inl h
      · exact Or.inr ⟨e, List.mem_cons_of_mem x he, hc, heq⟩

theorem foldl_lookup_covered (L : List (Nat × Nat × OpcodeDef)) (i : Nat)
    (e₀ : Nat × Nat × OpcodeDef) (hcov : covers e₀ i) :
    ∀ (acc : OpcodeDef), e₀ ∈ L →
      ∃ e ∈ L, covers e i ∧
        L.foldl (fun acc e => if e.1 ≤ i ∧ i ≤ e.2.1 then e.2.2 else acc) acc = e.2.2 := by
  induction L with
  | nil => intro acc h; cases h
  | cons x xs ih =>
    intro acc hmem
    simp only [List.foldl_cons]
    rcases List.mem_cons.mp hmem with rfl | hmem2
    · rw [if_pos (show e₀.1 ≤ i ∧ i ≤ e₀.2.1 from hcov)]
      rcases foldl_lookup_mem xs i e₀.2.2 with h | ⟨e, he, hc, heq⟩
      · exact ⟨e₀, List.mem_cons_self _ _, hcov, h⟩
      · exact ⟨e, List.mem_cons_of_mem _ he, hc, heq⟩
    · rcases ih (if x.1 ≤ i ∧ i ≤ x.2.1 then x.2.2 else acc) hmem2 with ⟨e, he, hc, heq⟩
      exact ⟨e, List.mem_cons_of_mem _ he, hc, heq⟩

theorem InsnTable_cases (i : Nat) :
    InsnTable i = zeroOpcodeDef ∨
      ∃ e ∈ rangeInits, covers e i ∧ InsnTable i = e.2.2 :=
  foldl_lookup_mem rangeInits i zeroOpcodeDef


/-! ### Coverage helper: a range initializer covering an index decides the lookup. -/

theorem InsnTable_of_covered (i : Nat) (e₀ : Nat × Nat × OpcodeDef)
    (hmem : e₀ ∈ rangeInits) (hcov : covers e₀ i) :
    ∃ e ∈ rangeInits, covers e i ∧ InsnTable i = e.2.2 :=
  foldl_lookup_covered rangeInits i e₀ hcov zeroOpcodeDef hmem

/-- Every designated initializer of the table installs a handler; only the zero
initialization leaves od_Emit unset. -/
theorem rangeInits_all_some :
    (rangeInits.all fun e => e.2.2.od_Emit.isSome) = true := by decide

/-! ### Metadata query functions (source lines 6737 to 6769). -/

/-- GetSR_LineE of the source: look the opcode up in the table with the low 12
bits, return the needed flags shifted 16 bits left ored with the set flags for
a mapped opcode, and the full flag set as needs with nothing set otherwise. -/
def GetSR_LineE (opcode : Nat) : Nat :=
  if (InsnTable (opcode &&& 0xfff)).od_Emit.isSome then
    ((InsnTable (opcode &&& 0xfff)).od_SRNeeds <<< 16) ||| (InsnTable (opcode &&& 0xfff)).od_SRSets
  else
    SR_CCR <<< 16

/-- M68K_GetLineELength of the source.  The external SR_GetEALength is passed
in as the function eaLen taking the remaining stream, the low 6 opcode bits and
the operand size.  The three locals start at zero and are assigned only for a
mapped opcode, exactly as in the source. -/
def M68K_GetLineELength (eaLen : List Nat → Nat → Nat → Nat)
    (insn_stream : List Nat) : Nat :=
  let opcode := insn_stream.headD 0
  let length := if (InsnTable (opcode &&& 0xfff)).od_Emit.isSome then
      (InsnTable (opcode &&& 0xfff)).od_BaseLength else 0
  let need_ea := if (InsnTable (opcode &&& 0xfff)).od_Emit.isSome then
      (InsnTable (opcode &&& 0xfff)).od_HasEA else false
  let opsize := if (InsnTable (opcode &&& 0xfff)).od_Emit.isSome then
      (InsnTable (opcode &&& 0xfff)).od_OpSize else 0
  if need_ea then length + eaLen (insn_stream.drop length) (opcode &&& 0x3f) opsize
  else length

/-- C6: for every 16-bit opcode value, GetSR_LineE indexes the dispatch table
only with the opcode masked to 12 bits, which is always in bounds; a mapped
opcode yields the required flags shifted left 16 ored with the produced flags,
an unmapped opcode yields all five flags as needs and none as sets. -/
theorem C6_flags_for (opcode : Nat) :
    (opcode &&& 0xfff) < 4096 ∧
    (∀ hnd, (InsnTable (opcode &&& 0xfff)).od_Emit = some hnd →
      GetSR_LineE opcode =
        ((InsnTable (opcode &&& 0xfff)).od_SRNeeds <<< 16) |||
          (InsnTable (opcode &&& 0xfff)).od_SRSets) ∧
    ((InsnTable (opcode &&& 0xfff)).od_Emit = none →
      GetSR_LineE opcode = (SR_CCR <<< 16) ||| 0) := by
  refine ⟨?_, ?_, ?_⟩
  · exact Nat.lt_of_le_of_lt (Nat.and_le_right) (by norm_num)
  · intro hnd hm
    unfold GetSR_LineE
    rw [if_pos (by rw [hm]; rfl)]
  · intro hm
    unfold GetSR_LineE
    rw [if_neg (by rw [hm]; simp)]
    simp

/-- Witness for C6 at the unmapped opcode 0xE1C0 and the mapped opcode 0xE000. -/
theorem C6_flags_for_witness :
    GetSR_LineE 0xE1C0 = (SR_CCR <<< 16) ||| 0 ∧
      GetSR_LineE 0xE000 = ((InsnTable 0).od_SRNeeds <<< 16) ||| (InsnTable 0).od_SRSets := by
  constructor
  · exact (C6_flags_for 0xE1C0).2.2 (by decide)
  · exact (C6_flags_for 0xE000).2.1 EMIT_ASR (by decide)

/-- C7: for a mapped opcode the length query returns the base length of the
table entry plus, exactly when the entry has the needs-EA flag, the effective
address length computed on the stream starting base length words after the
opcode, from the low 6 opcode bits and the entry operand size. -/
theorem C7_length_for (eaLen : List Nat → Nat → Nat → Nat) (insn_stream : List Nat)
    (hnd : Handler)
    (hmap : (InsnTable ((insn_stream.headD 0) &&& 0xfff)).od_Emit = some hnd) :
    M68K_GetLineELength eaLen insn_stream =
      (InsnTable ((insn_stream.headD 0) &&& 0xfff)).od_BaseLength +
        (if (InsnTable ((insn_stream.headD 0) &&& 0xfff)).od_HasEA then
          eaLen (insn_stream.drop (InsnTable ((insn_stream.headD 0) &&& 0xfff)).od_BaseLength)
            ((insn_stream.headD 0) &&& 0x3f)
            (InsnTable ((insn_stream.headD 0) &&& 0xfff)).od_OpSize
        else 0) := by
  unfold M68K_GetLineELength
  simp only [hmap, Option.isSome_some, if_true]
  split
  · rfl
  · omega

/-- Witness for C7 at the memory shift opcode 0xE0D0 with a constant EA length. -/
theorem C7_length_for_witness :
    M68K_GetLineELength (fun _ _ _ => 7) [0xE0D0] = 8 := by
  have h := C7_length_for (fun _ _ _ => 7) [0xE0D0] EMIT_ASR_mem (by decide)
  rw [h]
  decide

/-- C10: for an opcode whose table entry has no handler the length query
returns 0, not the one-word minimum, because length, the EA flag and the
operand size keep their zero initialization. -/
theorem C10_unmapped_length_zero (eaLen : List Nat → Nat → Nat → Nat)
    (insn_stream : List Nat)
    (hmap : (InsnTable ((insn_stream.headD 0) &&& 0xfff)).od_Emit = none) :
    M68K_GetLineELength eaLen insn_stream = 0 := by
  unfold M68K_GetLineELength
  simp only [hmap, Option.isSome_none, Bool.false_eq_true, if_false]

/-- Witness for C10 at the unmapped opcode 0xE1C0. -/
theorem C10_unmapped_length_zero_witness :
    M68K_GetLineELength (fun _ _ _ => 7) [0xE1C0] = 0 :=
  C10_unmapped_length_zero (fun _ _ _ => 7) [0xE1C0] (by decide)

/-! ### Family entry point EMIT_lineE (source lines 6636 to 6735).
Guest stream words arrive already byte-order decoded; w0 is the opcode word,
w1 and w2 the two following guest words, addr the guest address used in the
diagnostic message. -/

/-- Peephole fusion test of the source lines 6644 to 6646: the first word
matches the rotate-by-8 pattern, the second word is the register swap of the
same register, and the third word equals the first on every bit except the
direction bit (mask 0xfeff). -/
def fusionCond (w0 w1 w2 : Nat) : Bool :=
  (w0 &&& 0xfef8 == 0xe058) &&
    (w1 == (0x4840 ||| (w0 &&& 7))) &&
    ((w2 &&& 0xfeff) == (w0 &&& 0xfeff))

/-- Modelled from the spec: number of the guest illegal instruction exception
vector passed to the external EMIT_Exception. -/
def VECTOR_ILLEGAL_INSTRUCTION : Nat := 4

/-- Items appended to the native output buffer, at the granularity this
development needs: concrete emitted instruction words, the byte-reverse
instruction, the externally emitted sequences, and dispatched handler code. -/
inductive EmitItem where
  | instr (w : Nat)
  | rev (reg : Nat)
  | advancePC (bytes : Nat)
  | ccUpdate
  | flushPC
  | debugString (opcode addr : Nat)
  | exception (vector flags : Nat)
  | handler (h : Handler)
  deriving DecidableEq, Repr

structure LineEResult where
  insn_consumed : Nat
  emitted : List EmitItem
  deriving DecidableEq, Repr

/-- EMIT_lineE: reads the opcode, sets insn_consumed to 1; on the fused
rotate-swap-rotate idiom emits one rev, advances the PC by 6, optionally
updates the condition codes, and sets insn_consumed to 3; otherwise
dispatches to the table handler when set, else flushes the PC, emits the
diagnostic, the illegal instruction exception and one all-ones word. -/
def EMIT_lineE (w0 w1 w2 : Nat) (update_mask addr : Nat) : LineEResult :=
  if fusionCond w0 w1 w2 then
    { insn_consumed := 3,
      emitted := [.rev (w0 &&& 7), .advancePC 6] ++
        (if update_mask ≠ 0 then [.ccUpdate] else []) }
  else
    match (InsnTable (w0 &&& 0xfff)).od_Emit with
    | some h => { insn_consumed := 1, emitted := [.handler h] }
    | none =>
      { insn_consumed := 1,
        emitted := [.flushPC, .debugString w0 addr,
          .exception VECTOR_ILLEGAL_INSTRUCTION 0, .instr 0xffffffff] }

/-- The triple pattern exactly as the claim reads it: the first word a
rotate-by-8, the second the swap of the same register, the third the
COMPLEMENTARY rotate-by-8 of the same register with equal flag policy,
that is, the first word with the direction bit inverted. -/
def specFusionTriple (w0 w1 w2 : Nat) : Prop :=
  (w0 &&& 0xfef8) = 0xe058 ∧ w1 = 0x4840 ||| (w0 &&& 7) ∧ w2 = w0 ^^^ 0x100

instance (w0 w1 w2 : Nat) : Decidable (specFusionTriple w0 w1 w2) := by
  unfold specFusionTriple; infer_instance

/-! ### Bit decomposition helpers. -/

theorem and_rot8_index {w : Nat} (h : w &&& 0xfef8 = 0xe058) :
    w &&& 0xfff = 0x58 ||| ((w &&& 7) ||| (w &&& 0x100)) := by
  have h1 : w &&& 0xef8 = 0x58 := by
    have h2 := congrArg (fun x => x &&& 0xef8) h
    simp only [Nat.and_assoc] at h2
    rw [show (0xfef8 : Nat) &&& 0xef8 = 0xef8 from by decide] at h2
    rw [h2]
    decide
  have h2 : w &&& 0xfff = (w &&& 0xef8) ||| (w &&& 0x107) := by
    rw [show (0xfff : Nat) = 0xef8 ||| 0x107 from by decide, Nat.and_or_distrib_left]
  have h3 : w &&& 0x107 = (w &&& 7) ||| (w &&& 0x100) := by
    rw [show (0x107 : Nat) = 7 ||| 0x100 from by decide, Nat.and_or_distrib_left]
  rw [h2, h1, h3]

theorem rot8_index_mapped : ∀ r ≤ 7, ∀ b ≤ 1,
    ((InsnTable (0x58 ||| (r ||| 256 * b))).od_Emit).isSome = true := by decide

/-- A fused opcode always has a mapped dispatch entry: its low 12 bits land in
the immediate rotate rows of the table. -/
theorem fusion_mapped {w0 w1 w2 : Nat} (h : fusionCond w0 w1 w2 = true) :
    ((InsnTable (w0 &&& 0xfff)).od_Emit).isSome = true := by
  have h0 : w0 &&& 0xfef8 = 0xe058 := by
    simp only [fusionCond, Bool.and_eq_true, beq_iff_eq] at h
    exact h.1.1
  rw [and_rot8_index h0]
  have hr : w0 &&& 7 ≤ 7 := Nat.and_le_right
  have hb : w0 &&& 0x100 = 256 * 0 ∨ w0 &&& 0x100 = 256 * 1 := by
    rw [show (0x100 : Nat) = 2 ^ 8 from by norm_num, Nat.and_two_pow]
    rcases Bool.eq_false_or_eq_true (w0.testBit 8) with ht | ht <;> rw [ht]
    · exact Or.inr (by norm_num)
    · exact Or.inl (by norm_num)
  rcases hb with hb | hb <;> rw [hb]
  · exact rot8_index_mapped (w0 &&& 7) hr 0 (by norm_num)
  · exact rot8_index_mapped (w0 &&& 7) hr 1 (by norm_num)

/-- Agreement of the masked third word with the first is exactly equality up
to the direction bit, for 16-bit words. -/
theorem and_feff_eq_iff {a b : Nat} (ha : a < 65536) (hb : b < 65536) :
    b &&& 0xfeff = a &&& 0xfeff ↔ b = a ∨ b = a ^^^ 0x100 := by
  have hp : (65536 : Nat) = 2 ^ 16 := by norm_num
  constructor
  · intro h
    have hd : (b ^^^ a) &&& 0xfeff = 0 := by
      rw [Nat.and_xor_distrib_right, h, Nat.xor_self]
    have hdlt : b ^^^ a < 2 ^ 16 := by
      rw [hp] at ha hb
      exact Nat.xor_lt_two_pow hb ha
    have hsplit : b ^^^ a = ((b ^^^ a) &&& 0xfeff) ||| ((b ^^^ a) &&& 0x100) := by
      conv_lhs => rw [← Nat.and_pow_two_sub_one_of_lt_two_pow hdlt]
      rw [show (2 ^ 16 - 1 : Nat) = 0xfeff ||| 0x100 from by decide,
        Nat.and_or_distrib_left]
    have hb8 : (b ^^^ a) &&& 0x100 = 0 ∨ (b ^^^ a) &&& 0x100 = 256 := by
      rw [show (0x100 : Nat) = 2 ^ 8 from by norm_num, Nat.and_two_pow]
      rcases Bool.eq_false_or_eq_true ((b ^^^ a).testBit 8) with ht | ht <;> rw [ht]
      · exact Or.inr (by norm_num)
      · exact Or.inl (by norm_num)
    have hba : b = a ^^^ (b ^^^ a) := by
      rw [Nat.xor_comm b a, Nat.xor_cancel_left]
    rcases hb8 with h8 | h8
    · left
      rw [hsplit, hd, h8] at hba
      simpa using hba
    · right
      rw [hsplit, hd, h8] at hba
      simpa using hba
  · rintro (rfl | rfl)
    · rfl
    · rw [Nat.and_xor_distrib_right, show (0x100 : Nat) &&& 0xfeff = 0 from by decide,
        Nat.xor_zero]

/-- C1 counterexample: with the third word equal to the first (the same, not
the complementary, rotate) the code still fuses and consumes 3 instructions,
while the claim as stated requires the complementary rotate and hence 1. -/
theorem C1_counterexample :
    (EMIT_lineE 0xE058 0x4840 0xE058 0 0).insn_consumed = 3 ∧
      ¬ specFusionTriple 0xE058 0x4840 0xE058 := by
  decide

/-- C1 amended: instructionsConsumed is 3 exactly when the first word matches
the rotate-by-8 pattern, the second is the swap of the same register, and the
third equals the first on all bits except possibly the direction bit, that is,
it is the same or the complementary rotate-by-8 with equal flag policy; it is
1 in every other case, and the fused path emits the byte-reverse instruction
exactly once. -/
theorem C1_fusion_amended (w0 w1 w2 um addr : Nat)
    (h0 : w0 < 65536) (h2 : w2 < 65536) :
    ((EMIT_lineE w0 w1 w2 um addr).insn_consumed = 3 ↔
      (w0 &&& 0xfef8) = 0xe058 ∧ w1 = 0x4840 ||| (w0 &&& 7) ∧
        (w2 = w0 ∨ w2 = w0 ^^^ 0x100)) ∧
    (¬ ((w0 &&& 0xfef8) = 0xe058 ∧ w1 = 0x4840 ||| (w0 &&& 7) ∧
        (w2 = w0 ∨ w2 = w0 ^^^ 0x100)) →
      (EMIT_lineE w0 w1 w2 um addr).insn_consumed = 1) ∧
    ((EMIT_lineE w0 w1 w2 um addr).insn_consumed = 3 →
      ((EMIT_lineE w0 w1 w2 um addr).emitted.count (EmitItem.rev (w0 &&& 7))) = 1) := by
  have hfus : fusionCond w0 w1 w2 = true ↔
      ((w0 &&& 0xfef8) = 0xe058 ∧ w1 = 0x4840 ||| (w0 &&& 7) ∧
        (w2 = w0 ∨ w2 = w0 ^^^ 0x100)) := by
    simp only [fusionCond, Bool.and_eq_true, beq_iff_eq, and_assoc]
    exact and_congr_right fun _ => and_congr_right fun _ => and_feff_eq_iff h0 h2
  have hcons : (EMIT_lineE w0 w1 w2 um addr).insn_consumed = 3 ↔
      fusionCond w0 w1 w2 = true := by
    unfold EMIT_lineE
    rcases Bool.eq_false_or_eq_true (fusionCond w0 w1 w2) with hf | hf <;> rw [hf]
    · simp
    · simp only [Bool.false_eq_true, if_false]
      rcases hm : (InsnTable (w0 &&& 0xfff)).od_Emit with _ | hh <;> simp
  refine ⟨hcons.trans hfus, ?_, ?_⟩
  · intro hnot
    have hf : fusionCond w0 w1 w2 = false := by
      rcases Bool.eq_false_or_eq_true (fusionCond w0 w1 w2) with h | h
      · exact absurd (hfus.mp h) hnot
      · exact h
    unfold EMIT_lineE
    rw [hf]
    simp only [Bool.false_eq_true, if_false]
    rcases hm : (InsnTable (w0 &&& 0xfff)).od_Emit with _ | hh <;> rfl
  · intro h3
    have hf := hcons.mp h3
    unfold EMIT_lineE
    rw [hf]
    simp only [if_true]
    rcases Decidable.eq_or_ne um 0 with rfl | hum <;>
      simp [List.count_cons, List.count_append, *]

/-- Witness for C1 amended at the fused ROR, SWAP, ROL triple on D0. -/
theorem C1_fusion_amended_witness :
    (EMIT_lineE 0xE058 0x4840 0xE158 0 0).insn_consumed = 3 := by
  have h := (C1_fusion_amended 0xE058 0x4840 0xE158 0 0 (by decide) (by decide)).1
  exact h.mpr (by decide)

/-- C5: for an opcode whose dispatch entry has no handler, EMIT_lineE emits
the PC flush, the diagnostic record with opcode and guest address, the illegal
instruction exception sequence and exactly one all-ones instruction word as
the final item, and invokes no handler. -/
theorem C5_unmapped_trap (w0 w1 w2 um addr : Nat)
    (hmap : (InsnTable (w0 &&& 0xfff)).od_Emit = none) :
    (EMIT_lineE w0 w1 w2 um addr).emitted =
      [.flushPC, .debugString w0 addr,
        .exception VECTOR_ILLEGAL_INSTRUCTION 0, .instr 0xffffffff] ∧
    (EMIT_lineE w0 w1 w2 um addr).insn_consumed = 1 ∧
    ((EMIT_lineE w0 w1 w2 um addr).emitted.count (EmitItem.instr 0xffffffff)) = 1 ∧
    (EMIT_lineE w0 w1 w2 um addr).emitted.getLast? = some (.instr 0xffffffff) ∧
    ∀ hnd, EmitItem.handler hnd ∉ (EMIT_lineE w0 w1 w2 um addr).emitted := by
  have hnf : fusionCond w0 w1 w2 = false := by
    rcases Bool.eq_false_or_eq_true (fusionCond w0 w1 w2) with hf | hf
    · have := fusion_mapped hf
      rw [hmap] at this
      cases this
    · exact hf
  have hres : EMIT_lineE w0 w1 w2 um addr =
      { insn_consumed := 1,
        emitted := [.flushPC, .debugString w0 addr,
          .exception VECTOR_ILLEGAL_INSTRUCTION 0, .instr 0xffffffff] } := by
    unfold EMIT_lineE
    rw [hnf]
    simp only [Bool.false_eq_true, if_false]
    rw [hmap]
  rw [hres]
  refine ⟨rfl, rfl, rfl, rfl, ?_⟩
  intro hnd
  simp

/-- Witness for C5 at the unmapped opcode 0xE1C0. -/
theorem C5_unmapped_trap_witness :
    (EMIT_lineE 0xE1C0 0 0 0 0x1000).emitted =
      [.flushPC, .debugString 0xE1C0 0x1000,
        .exception VECTOR_ILLEGAL_INSTRUCTION 0, .instr 0xffffffff] :=
  (C5_unmapped_trap 0xE1C0 0 0 0 0x1000 (by decide)).1

/-! ### C2: PC advancement of every handler (one EMIT_AdvancePC call per body). -/

/-- Bytes passed by each handler body to its single EMIT_AdvancePC call.
Register destination shifts pass 2 (no extension words).  Memory shifts pass
2 times (ext_words + 1) with ext_words counting only the EA words.  Bitfield
bodies start ext_words at 1 for their extension word; BFTST, BFEXTU and
BFEXTS resolve an EA only when the source is not a data register, the other
mem bodies resolve one unconditionally, and the reg bodies never do. -/
def handlerAdvanceBytes (h : Handler) (opcode eaWords : Nat) : Nat :=
  match h with
  | .ASL_mem | .LSL_mem | .ROXL_mem | .ROL_mem => 2 * (eaWords + 1)
  | .ASL | .LSL | .ROL | .ROXL => 2
  | .BFTST | .BFEXTU | .BFEXTS =>
      2 * ((1 + (if opcode &&& 0x38 = 0 then 0 else eaWords)) + 1)
  | .BFFFO | .BFCHG | .BFSET | .BFCLR | .BFINS => 2 * ((1 + eaWords) + 1)
  | .BFFFO_reg | .BFCHG_reg | .BFSET_reg | .BFCLR_reg | .BFINS_reg => 2 * (1 + 1)

/-- Consistency of each table row with the PC advance of its handler: base
length and EA flag match what the handler body consumes; rows that resolve an
EA without the needs-EA flag are exactly the address register indirect rows,
whose EA consumes no extension words. -/
def advanceLenCheck (i : Nat) (d : OpcodeDef) : Bool :=
  match d.od_Emit with
  | none => true
  | some .ASL | some .LSL | some .ROL | some .ROXL =>
      d.od_BaseLength == 1 && !d.od_HasEA
  | some .ASL_mem | some .LSL_mem | some .ROXL_mem | some .ROL_mem =>
      d.od_BaseLength == 1 && d.od_HasEA
  | some .BFTST | some .BFEXTU | some .BFEXTS =>
      d.od_BaseLength == 2 &&
        (if i &&& 0x38 = 0 then !d.od_HasEA else (d.od_HasEA || i &&& 0x38 == 0x10))
  | some .BFFFO | some .BFCHG | some .BFSET | some .BFCLR | some .BFINS =>
      d.od_BaseLength == 2 && (d.od_HasEA || i &&& 0x38 == 0x10)
  | some .BFFFO_reg | some .BFCHG_reg | some .BFSET_reg | some .BFCLR_reg
  | some .BFINS_reg =>
      d.od_BaseLength == 2 && !d.od_HasEA

theorem advanceLenCheck_rows : (rangeInits.all fun e =>
    (List.range (e.2.1 + 1 - e.1)).all fun k => advanceLenCheck (e.1 + k) e.2.2) = true := by
  decide

theorem advanceLenCheck_at (i : Nat) : advanceLenCheck i (InsnTable i) = true := by
  rcases InsnTable_cases i with h | ⟨e, he, hc, heq⟩
  · rw [h]; rfl
  · rw [heq]
    obtain ⟨hlo, hhi⟩ := hc
    have hall := advanceLenCheck_rows
    rw [List.all_eq_true] at hall
    have h1 := hall e he
    rw [List.all_eq_true] at h1
    have h2 := h1 (i - e.1) (by rw [List.mem_range]; omega)
    rw [show e.1 + (i - e.1) = i from by omega] at h2
    exact h2
/-- C2: for every opcode that reaches a handler, the handler advances the
virtual PC by exactly 2 times (1 + extension words consumed), which equals
2 times the length query result; register destination shifts advance by
exactly 2 bytes and the fused peephole path advances by exactly 6 bytes.
The abstract eaWords is the count the external EA resolver reports, assumed
equal to the count the external length scanner adds (hEA), and zero for the
address register indirect mode, which has no extension words (hAn). -/
theorem C2_pc_advance (eaLen : List Nat → Nat → Nat → Nat) (opcode : Nat)
    (rest : List Nat) (hnd : Handler)
    (hmap : (InsnTable (opcode &&& 0xfff)).od_Emit = some hnd)
    (eaWords : Nat)
    (hEA : eaLen ((opcode :: rest).drop (InsnTable (opcode &&& 0xfff)).od_BaseLength)
        (opcode &&& 0x3f) (InsnTable (opcode &&& 0xfff)).od_OpSize = eaWords)
    (hAn : opcode &&& 0x38 = 0x10 → eaWords = 0) :
    handlerAdvanceBytes hnd opcode eaWords = 2 * M68K_GetLineELength eaLen (opcode :: rest) ∧
    ((hnd = .ASL ∨ hnd = .LSL ∨ hnd = .ROL ∨ hnd = .ROXL) →
      handlerAdvanceBytes hnd opcode eaWords = 2) ∧
    (∀ w1 w2 um addr, fusionCond opcode w1 w2 = true →
      EmitItem.advancePC 6 ∈ (EMIT_lineE opcode w1 w2 um addr).emitted) := by
  have hmode : (opcode &&& 0xfff) &&& 0x38 = opcode &&& 0x38 := by
    rw [Nat.and_assoc, show (0xfff : Nat) &&& 0x38 = 0x38 from by decide]
  have hlen : M68K_GetLineELength eaLen (opcode :: rest) =
      (InsnTable (opcode &&& 0xfff)).od_BaseLength +
        (if (InsnTable (opcode &&& 0xfff)).od_HasEA then eaWords else 0) := by
    unfold M68K_GetLineELength
    simp only [List.headD_cons, hmap, Option.isSome_some, if_true]
    split
    · rw [hEA]
    · omega
  refine ⟨?_, ?_, ?_⟩
  · have hchk := advanceLenCheck_at (opcode &&& 0xfff)
    rw [hlen]
    cases hnd <;>
      simp only [advanceLenCheck, hmap, hmode, Bool.and_eq_true, beq_iff_eq,
        Bool.not_eq_true', Bool.or_eq_true, decide_eq_true_eq] at hchk <;>
      simp only [handlerAdvanceBytes]
    case ASL | LSL | ROL | ROXL =>
      rw [hchk.1, hchk.2]
      norm_num
    case ASL_mem | LSL_mem | ROXL_mem | ROL_mem =>
      rw [hchk.1, hchk.2]
      simp only [if_true]
      omega
    case BFFFO_reg | BFCHG_reg | BFSET_reg | BFCLR_reg | BFINS_reg =>
      rw [hchk.1, hchk.2]
      norm_num
    case BFFFO | BFCHG | BFSET | BFCLR | BFINS =>
      rw [hchk.1]
      rcases hchk.2 with hea | hm2
      · rw [hea]; simp only [if_true]; omega
      · rw [hAn hm2]
        split <;> omega
    case BFTST | BFEXTU | BFEXTS =>
      rw [hchk.1] at *
      by_cases hz : opcode &&& 0x38 = 0
      · rw [if_pos hz] at *
        simp only [Bool.not_eq_true'] at hchk
        rw [hchk.2]
        simp
      · rw [if_neg hz] at *
        simp only [Bool.or_eq_true, beq_iff_eq] at hchk
        rcases hchk.2 with hea | hm2
        · rw [hea]; simp only [if_true]; omega
        · rw [hAn hm2]
          split <;> omega
  · rintro (rfl | rfl | rfl | rfl) <;> rfl
  · intro w1 w2 um addr hf
    unfold EMIT_lineE
    rw [hf]
    simp

/-- Witness for C2 at the memory shift opcode 0xE1D0 (address register
indirect, zero EA extension words). -/
theorem C2_pc_advance_witness :
    handlerAdvanceBytes EMIT_ASL_mem 0xE1D0 0 =
      2 * M68K_GetLineELength (fun _ _ _ => 0) [0xE1D0] :=
  (C2_pc_advance (fun _ _ _ => 0) 0xE1D0 [] EMIT_ASL_mem (by decide) 0
    (by decide) (fun _ => rfl)).1
/-! ### C8: memory destination shift addressing (16-bit operand, amount 1).
The four memory bodies EMIT_ASL_mem, EMIT_LSL_mem, EMIT_ROXL_mem and
EMIT_ROL_mem contain the identical addressing skeleton: a pre-decrement
destination (mode field 0x20) is loaded with a pre-indexed halfword load at
offset -2, a post-increment destination (mode field 0x18) is stored with a
post-indexed halfword store at offset 2, and every other mode loads and
stores at offset 0 from the resolved address.  Host addresses are 64-bit and
wrap. -/

structure MemAccess where
  loadAddr : Nat
  addrAfterLoad : Nat
  storeAddr : Nat
  addrAfterStore : Nat
  deriving DecidableEq, Repr

/-- Load and store addressing of the memory shift bodies, one match arm per
body, each transcribing the same two if statements of its source lines. -/
def memShiftAccess (h : Handler) (opcode a : Nat) : Option MemAccess :=
  match h with
  | .ASL_mem =>
    let a1 := if opcode &&& 0x38 = 0x20 then (a + (2 ^ 64 - 2)) % 2 ^ 64 else a
    let la := if opcode &&& 0x38 = 0x20 then a1 else a
    some ⟨la, a1, a1, if opcode &&& 0x38 = 0x18 then (a1 + 2) % 2 ^ 64 else a1⟩
  | .LSL_mem =>
    let a1 := if opcode &&& 0x38 = 0x20 then (a + (2 ^ 64 - 2)) % 2 ^ 64 else a
    let la := if opcode &&& 0x38 = 0x20 then a1 else a
    some ⟨la, a1, a1, if opcode &&& 0x38 = 0x18 then (a1 + 2) % 2 ^ 64 else a1⟩
  | .ROXL_mem =>
    let a1 := if opcode &&& 0x38 = 0x20 then (a + (2 ^ 64 - 2)) % 2 ^ 64 else a
    let la := if opcode &&& 0x38 = 0x20 then a1 else a
    some ⟨la, a1, a1, if opcode &&& 0x38 = 0x18 then (a1 + 2) % 2 ^ 64 else a1⟩
  | .ROL_mem =>
    let a1 := if opcode &&& 0x38 = 0x20 then (a + (2 ^ 64 - 2)) % 2 ^ 64 else a
    let la := if opcode &&& 0x38 = 0x20 then a1 else a
    some ⟨la, a1, a1, if opcode &&& 0x38 = 0x18 then (a1 + 2) % 2 ^ 64 else a1⟩
  | _ => none

/-- C8: for every memory destination shift or rotate handler, pre-decrement
mode loads the 16-bit value after adjusting the address backward by 2 and
stores back at that adjusted address; post-increment mode loads and stores at
the resolved address and then adjusts it forward by 2; every other mode loads
and stores at offset 0 and leaves the address unchanged. -/
theorem C8_mem_shift_addressing (h : Handler) (opcode a : Nat)
    (acc : MemAccess) (hacc : memShiftAccess h opcode a = some acc)
    (ha2 : 2 ≤ a) (halt : a + 2 < 2 ^ 64) :
    (opcode &&& 0x38 = 0x20 →
      acc.loadAddr = a - 2 ∧ acc.storeAddr = a - 2 ∧ acc.addrAfterStore = a - 2) ∧
    (opcode &&& 0x38 = 0x18 →
      acc.loadAddr = a ∧ acc.storeAddr = a ∧ acc.addrAfterStore = a + 2) ∧
    (opcode &&& 0x38 ≠ 0x20 → opcode &&& 0x38 ≠ 0x18 →
      acc.loadAddr = a ∧ acc.storeAddr = a ∧ acc.addrAfterStore = a) := by
  cases h <;> simp only [memShiftAccess] at hacc <;> try cases hacc
  all_goals (
    refine ⟨fun hpre => ?_, fun hpost => ?_, fun hnp hnq => ?_⟩ <;>
      refine ⟨?_, ?_, ?_⟩ <;> (dsimp only; split_ifs <;> omega))

/-- Witness for C8: ASL_mem with pre-decrement addressing at address 100. -/
theorem C8_mem_shift_addressing_witness :
    (2 ≤ 100 ∧ (0xE1E0 : Nat) &&& 0x38 = 0x20) ∧
      ∃ acc, memShiftAccess EMIT_ASL_mem 0xE1E0 100 = some acc ∧
        acc.loadAddr = 98 ∧ acc.storeAddr = 98 ∧ acc.addrAfterStore = 98 := by
  refine ⟨⟨by norm_num, by decide⟩, ?_⟩
  rcases hm : memShiftAccess EMIT_ASL_mem 0xE1E0 100 with _ | acc
  · exact absurd hm (by decide)
  · have h := C8_mem_shift_addressing EMIT_ASL_mem 0xE1E0 100 acc hm (by norm_num)
      (by norm_num)
    exact ⟨acc, rfl, (h.1 (by decide))⟩
/-! ### C9: scratch register acquire and release balance.
Each handler body is abstracted to its sequence of scratch register events:
RA_AllocARMRegister, RA_CopyFromM68kRegister and the register the effective
address resolver hands back are acquisitions; RA_FreeARMRegister is a release.
Registers obtained with RA_MapM68kRegister or RA_MapM68kRegisterForWrite and
the condition code register of RA_ModifyCC are allocator owned, not scratch,
and do not appear (the single release of a mapped register in the BFFFO
register-offset paths targets handle 8 without a matching acquisition and is
ignored by the balance predicate, which constrains acquired handles only).
Handle numbering per body: 0 tmp, 1 tmp2, 2 mask, 3 t, 4 the EA result,
5 the copied shift or the amount register, 6 width_reg, 7 off_reg,
8 off_orig (a copy only when offset and destination name the same register),
9 masked_src, 10 testreg. -/

inductive RegEvent where
  | alloc (n : Nat)
  | free (n : Nat)
  deriving DecidableEq, Repr

/-- Every handle acquired in the trace is acquired once and released once. -/
def balancedB (t : List RegEvent) : Bool :=
  t.all fun e =>
    match e with
    | .alloc n => t.count (.alloc n) == 1 && t.count (.free n) == 1
    | .free _ => true

/-- Scratch register event trace of each handler body, one match arm per
body, conditions transcribed from the source if structure. -/

def handlerTraceASL_mem (op op2 update_mask : Nat) : List RegEvent :=
  [.alloc 0, .alloc 4] ++ (if update_mask ≠ 0 then [.alloc 1, .free 1] else []) ++ [.free 0, .free 4]

def handlerTraceLSL_mem (op op2 update_mask : Nat) : List RegEvent :=
  [.alloc 0, .alloc 4] ++ (if update_mask ≠ 0 then [.alloc 1, .free 1] else []) ++ [.free 0, .free 4]

def handlerTraceROXL_mem (op op2 update_mask : Nat) : List RegEvent :=
  [.alloc 0, .alloc 4] ++ (if update_mask ≠ 0 then [.alloc 1, .free 1] else []) ++ [.free 0, .free 4]

def handlerTraceROL_mem (op op2 update_mask : Nat) : List RegEvent :=
  [.alloc 0, .alloc 4, .free 0, .free 4]

def handlerTraceASL (op op2 update_mask : Nat) : List RegEvent :=
  [.alloc 0] ++ (if (op >>> 5) &&& 1 = 1 ∧ ¬ ((op >>> 8) &&& 1 = 1) then [.alloc 2] ++ (if update_mask &&& (SR_C ||| SR_X) ≠ 0 then [.alloc 3, .free 3] else []) ++ [.free 2] else []) ++ (if update_mask ≠ 0 then [.alloc 1, .free 1] else []) ++ [.free 0]

def handlerTraceLSL (op op2 update_mask : Nat) : List RegEvent :=
  [.alloc 0] ++ (if (op >>> 5) &&& 1 = 1 ∧ ¬ ((op >>> 8) &&& 1 = 1) then [.alloc 2] ++ (if update_mask &&& (SR_C ||| SR_X) ≠ 0 then [.alloc 3, .free 3] else []) ++ [.free 2] else []) ++ (if update_mask ≠ 0 then [.alloc 1, .free 1] else []) ++ [.free 0]

def handlerTraceROL (op op2 update_mask : Nat) : List RegEvent :=
  [.alloc 0] ++ (if (op >>> 5) &&& 1 = 1 then [.alloc 5, .free 5] else []) ++ [.free 0]

def handlerTraceROXL (op op2 update_mask : Nat) : List RegEvent :=
  (if op &&& 0x20 ≠ 0 then [.alloc 5, .alloc 0, .alloc 1, .free 0, .free 1, .free 5] else [.alloc 0, .free 0])

def handlerTraceBFTST (op op2 update_mask : Nat) : List RegEvent :=
  (if op &&& 0x38 = 0 then
      (if op2 &&& 0x0820 = 0 then (if (op2 >>> 6) &&& 0x1f ≠ 0 ∨ op2 &&& 0x1f ≠ 0 then [.alloc 0, .free 0] else [])
       else if op2 &&& 0x800 = 0 ∧ op2 &&& 0x20 ≠ 0 then [.alloc 0, .alloc 6, .alloc 2, .free 0, .free 6, .free 2]
       else if op2 &&& 0x800 ≠ 0 ∧ op2 &&& 0x20 = 0 then [.alloc 7, .alloc 2, .alloc 0, .free 0, .free 2, .free 7]
       else if op2 &&& 0x800 ≠ 0 ∧ op2 &&& 0x20 ≠ 0 then [.alloc 7, .alloc 6, .alloc 2, .alloc 0, .free 0, .free 2, .free 6, .free 7]
       else [])
     else [.alloc 4] ++
      (if op2 &&& 0x0820 = 0 then [.alloc 0, .free 0]
       else if op2 &&& 0x800 = 0 ∧ op2 &&& 0x20 ≠ 0 then [.alloc 0, .alloc 6, .alloc 2, .free 0, .free 6, .free 2]
       else if op2 &&& 0x800 ≠ 0 ∧ op2 &&& 0x20 = 0 then [.alloc 7, .alloc 2, .alloc 0, .free 0, .free 2, .free 7]
       else if op2 &&& 0x800 ≠ 0 ∧ op2 &&& 0x20 ≠ 0 then [.alloc 7, .alloc 6, .alloc 2, .alloc 0, .free 0, .free 2, .free 6, .free 7]
       else []) ++ [.free 4])

def handlerTraceBFEXTU (op op2 update_mask : Nat) : List RegEvent :=
  (if op &&& 0x38 = 0 then
      (if op2 &&& 0x0820 = 0 then (if (op2 >>> 6) &&& 0x1f ≠ 0 ∨ op2 &&& 0x1f ≠ 0 then [.alloc 0, .free 0] else [])
       else if op2 &&& 0x800 = 0 ∧ op2 &&& 0x20 ≠ 0 then [.alloc 0, .alloc 6, .alloc 2, .free 0, .free 6, .free 2]
       else if op2 &&& 0x800 ≠ 0 ∧ op2 &&& 0x20 = 0 then [.alloc 7, .alloc 2, .alloc 0, .free 0, .free 2, .free 7]
       else if op2 &&& 0x800 ≠ 0 ∧ op2 &&& 0x20 ≠ 0 then [.alloc 7, .alloc 6, .alloc 2, .alloc 0, .free 0, .free 2, .free 6, .free 7]
       else [])
     else [.alloc 4] ++
      (if op2 &&& 0x0820 = 0 then [.alloc 0, .free 0]
       else if op2 &&& 0x800 = 0 ∧ op2 &&& 0x20 ≠ 0 then [.alloc 0, .alloc 6, .alloc 2, .free 0, .free 6, .free 2]
       else if op2 &&& 0x800 ≠ 0 ∧ op2 &&& 0x20 = 0 then [.alloc 7, .alloc 2, .alloc 0, .free 0, .free 2, .free 7]
       else if op2 &&& 0x800 ≠ 0 ∧ op2 &&& 0x20 ≠ 0 then [.alloc 7, .alloc 6, .alloc 2, .alloc 0, .free 0, .free 2, .free 6, .free 7]
       else []) ++ [.free 4])

def handlerTraceBFEXTS (op op2 update_mask : Nat) : List RegEvent :=
  (if op &&& 0x38 = 0 then
      (if op2 &&& 0x0820 = 0 then (if (op2 >>> 6) &&& 0x1f ≠ 0 ∨ op2 &&& 0x1f ≠ 0 then [.alloc 0, .free 0] else [])
       else if op2 &&& 0x800 = 0 ∧ op2 &&& 0x20 ≠ 0 then [.alloc 0, .alloc 6, .alloc 2, .free 0, .free 6, .free 2]
       else if op2 &&& 0x800 ≠ 0 ∧ op2 &&& 0x20 = 0 then [.alloc 7, .alloc 2, .alloc 0, .free 0, .free 2, .free 7]
       else if op2 &&& 0x800 ≠ 0 ∧ op2 &&& 0x20 ≠ 0 then [.alloc 7, .alloc 6, .alloc 2, .alloc 0, .free 0, .free 2, .free 6, .free 7]
       else [])
     else [.alloc 4] ++
      (if op2 &&& 0x0820 = 0 then [.alloc 0, .free 0]
       else if op2 &&& 0x800 = 0 ∧ op2 &&& 0x20 ≠ 0 then [.alloc 0, .alloc 6, .alloc 2, .free 0, .free 6, .free 2]
       else if op2 &&& 0x800 ≠ 0 ∧ op2 &&& 0x20 = 0 then [.alloc 7, .alloc 2, .alloc 0, .free 0, .free 2, .free 7]
       else if op2 &&& 0x800 ≠ 0 ∧ op2 &&& 0x20 ≠ 0 then [.alloc 7, .alloc 6, .alloc 2, .alloc 0, .free 0, .free 2, .free 6, .free 7]
       else []) ++ [.free 4])

def handlerTraceBFFFO_reg (op op2 update_mask : Nat) : List RegEvent :=
  (if op2 &&& 0x0820 = 0 then (if (op2 >>> 6) &&& 0x1f ≠ 0 ∨ op2 &&& 0x1f ≠ 0 then [.alloc 0, .free 0] else [])
       else if op2 &&& 0x800 = 0 ∧ op2 &&& 0x20 ≠ 0 then [.alloc 0, .alloc 6, .alloc 2, .free 0, .free 6, .free 2]
       else if op2 &&& 0x800 ≠ 0 ∧ op2 &&& 0x20 = 0 then [.alloc 7] ++ (if (op2 >>> 6) &&& 7 = (op2 >>> 12) &&& 7 then [.alloc 8] else []) ++ [.alloc 2, .alloc 0, .free 0, .free 2, .free 7, .free 8]
       else if op2 &&& 0x800 ≠ 0 ∧ op2 &&& 0x20 ≠ 0 then [.alloc 7] ++ (if (op2 >>> 6) &&& 7 = (op2 >>> 12) &&& 7 then [.alloc 8] else []) ++ [.alloc 6, .alloc 2, .alloc 0, .free 0, .free 2, .free 6, .free 7, .free 8]
       else [])

def handlerTraceBFFFO (op op2 update_mask : Nat) : List RegEvent :=
  [.alloc 4] ++
      (if op2 &&& 0x0820 = 0 then [.alloc 0, .free 0]
       else if op2 &&& 0x800 = 0 ∧ op2 &&& 0x20 ≠ 0 then [.alloc 0, .alloc 6, .alloc 2, .free 0, .free 6, .free 2]
       else if op2 &&& 0x800 ≠ 0 ∧ op2 &&& 0x20 = 0 then [.alloc 7] ++ (if (op2 >>> 6) &&& 7 = (op2 >>> 12) &&& 7 then [.alloc 8] else []) ++ [.alloc 2, .alloc 0, .free 0, .free 2, .free 7, .free 8]
       else if op2 &&& 0x800 ≠ 0 ∧ op2 &&& 0x20 ≠ 0 then [.alloc 7] ++ (if (op2 >>> 6) &&& 7 = (op2 >>> 12) &&& 7 then [.alloc 8] else []) ++ [.alloc 6, .alloc 2, .alloc 0, .free 0, .free 2, .free 6, .free 7, .free 8]
       else []) ++ [.free 4]

def handlerTraceBFCHG_reg (op op2 update_mask : Nat) : List RegEvent :=
  (if op2 &&& 0x0820 = 0 then (if (op2 >>> 6) &&& 0x1f ≠ 0 ∨ op2 &&& 0x1f ≠ 0 then [.alloc 0, .free 0] else [])
       else if op2 &&& 0x800 = 0 ∧ op2 &&& 0x20 ≠ 0 then [.alloc 0, .alloc 6, .alloc 2] ++ (if update_mask ≠ 0 then [.alloc 10, .free 10] else []) ++ [.free 0, .free 6, .free 2]
       else if op2 &&& 0x800 ≠ 0 ∧ op2 &&& 0x20 = 0 then [.alloc 7, .alloc 2, .alloc 0] ++ (if update_mask ≠ 0 then [.alloc 10, .free 10] else []) ++ [.free 0, .free 2, .free 7]
       else if op2 &&& 0x800 ≠ 0 ∧ op2 &&& 0x20 ≠ 0 then [.alloc 7, .alloc 6, .alloc 2, .alloc 0] ++ (if update_mask ≠ 0 then [.alloc 10, .free 10] else []) ++ [.free 0, .free 2, .free 6, .free 7]
       else [])

def handlerTraceBFCHG (op op2 update_mask : Nat) : List RegEvent :=
  [.alloc 4] ++
      (if op2 &&& 0x0820 = 0 then [.alloc 0] ++ (if update_mask ≠ 0 then [.alloc 10, .free 10] else []) ++ [.free 0]
       else if op2 &&& 0x800 = 0 ∧ op2 &&& 0x20 ≠ 0 then [.alloc 0, .alloc 6, .alloc 2] ++ (if update_mask ≠ 0 then [.alloc 10, .free 10] else []) ++ [.free 0, .free 6, .free 2]
       else if op2 &&& 0x800 ≠ 0 ∧ op2 &&& 0x20 = 0 then [.alloc 7, .alloc 2, .alloc 0] ++ (if update_mask ≠ 0 then [.alloc 10, .free 10] else []) ++ [.free 0, .free 2, .free 7]
       else if op2 &&& 0x800 ≠ 0 ∧ op2 &&& 0x20 ≠ 0 then [.alloc 7, .alloc 6, .alloc 2, .alloc 0] ++ (if update_mask ≠ 0 then [.alloc 10, .free 10] else []) ++ [.free 0, .free 2, .free 6, .free 7]
       else []) ++ [.free 4]

def handlerTraceBFSET_reg (op op2 update_mask : Nat) : List RegEvent :=
  (if op2 &&& 0x0820 = 0 then (if (op2 >>> 6) &&& 0x1f ≠ 0 ∨ op2 &&& 0x1f ≠ 0 then [.alloc 0, .free 0] else [])
       else if op2 &&& 0x800 = 0 ∧ op2 &&& 0x20 ≠ 0 then [.alloc 0, .alloc 6, .alloc 2] ++ (if update_mask ≠ 0 then [.alloc 10, .free 10] else []) ++ [.free 0, .free 6, .free 2]
       else if op2 &&& 0x800 ≠ 0 ∧ op2 &&& 0x20 = 0 then [.alloc 7, .alloc 2, .alloc 0] ++ (if update_mask ≠ 0 then [.alloc 10, .free 10] else []) ++ [.free 0, .free 2, .free 7]
       else if op2 &&& 0x800 ≠ 0 ∧ op2 &&& 0x20 ≠ 0 then [.alloc 7, .alloc 6, .alloc 2, .alloc 0] ++ (if update_mask ≠ 0 then [.alloc 10, .free 10] else []) ++ [.free 0, .free 2, .free 6, .free 7]
       else [])

def handlerTraceBFSET (op op2 update_mask : Nat) : List RegEvent :=
  [.alloc 4] ++
      (if op2 &&& 0x0820 = 0 then [.alloc 0] ++ (if update_mask ≠ 0 then [.alloc 10, .free 10] else []) ++ [.free 0]
       else if op2 &&& 0x800 = 0 ∧ op2 &&& 0x20 ≠ 0 then [.alloc 0, .alloc 6, .alloc 2] ++ (if update_mask ≠ 0 then [.alloc 10, .free 10] else []) ++ [.free 0, .free 6, .free 2]
       else if op2 &&& 0x800 ≠ 0 ∧ op2 &&& 0x20 = 0 then [.alloc 7, .alloc 2, .alloc 0] ++ (if update_mask ≠ 0 then [.alloc 10, .free 10] else []) ++ [.free 0, .free 2, .free 7]
       else if op2 &&& 0x800 ≠ 0 ∧ op2 &&& 0x20 ≠ 0 then [.alloc 7, .alloc 6, .alloc 2, .alloc 0] ++ (if update_mask ≠ 0 then [.alloc 10, .free 10] else []) ++ [.free 0, .free 2, .free 6, .free 7]
       else []) ++ [.free 4]

def handlerTraceBFCLR_reg (op op2 update_mask : Nat) : List RegEvent :=
  (if op2 &&& 0x0820 = 0 then (if (op2 >>> 6) &&& 0x1f ≠ 0 ∨ op2 &&& 0x1f ≠ 0 then [.alloc 0, .free 0] else [])
       else if op2 &&& 0x800 = 0 ∧ op2 &&& 0x20 ≠ 0 then [.alloc 0, .alloc 6, .alloc 2] ++ (if update_mask ≠ 0 then [.alloc 10, .free 10] else []) ++ [.free 0, .free 6, .free 2]
       else if op2 &&& 0x800 ≠ 0 ∧ op2 &&& 0x20 = 0 then [.alloc 7, .alloc 2, .alloc 0] ++ (if update_mask ≠ 0 then [.alloc 10, .free 10] else []) ++ [.free 0, .free 2, .free 7]
       else if op2 &&& 0x800 ≠ 0 ∧ op2 &&& 0x20 ≠ 0 then [.alloc 7, .alloc 6, .alloc 2, .alloc 0] ++ (if update_mask ≠ 0 then [.alloc 10, .free 10] else []) ++ [.free 0, .free 2, .free 6, .free 7]
       else [])

def handlerTraceBFCLR (op op2 update_mask : Nat) : List RegEvent :=
  [.alloc 4] ++
      (if op2 &&& 0x0820 = 0 then [.alloc 0] ++ (if update_mask ≠ 0 then [.alloc 10, .free 10] else []) ++ [.free 0]
       else if op2 &&& 0x800 = 0 ∧ op2 &&& 0x20 ≠ 0 then [.alloc 0, .alloc 6, .alloc 2] ++ (if update_mask ≠ 0 then [.alloc 10, .free 10] else []) ++ [.free 0, .free 6, .free 2]
       else if op2 &&& 0x800 ≠ 0 ∧ op2 &&& 0x20 = 0 then [.alloc 7, .alloc 2, .alloc 0] ++ (if update_mask ≠ 0 then [.alloc 10, .free 10] else []) ++ [.free 0, .free 2, .free 7]
       else if op2 &&& 0x800 ≠ 0 ∧ op2 &&& 0x20 ≠ 0 then [.alloc 7, .alloc 6, .alloc 2, .alloc 0] ++ (if update_mask ≠ 0 then [.alloc 10, .free 10] else []) ++ [.free 0, .free 2, .free 6, .free 7]
       else []) ++ [.free 4]

def handlerTraceBFINS_reg (op op2 update_mask : Nat) : List RegEvent :=
  (if op2 &&& 0x0820 = 0 then (if (op2 >>> 6) &&& 0x1f ≠ 0 ∨ op2 &&& 0x1f ≠ 0 then [.alloc 0, .alloc 9] ++ (if update_mask ≠ 0 then [.alloc 10, .free 10] else []) ++ [.free 0, .free 9] else [])
       else if op2 &&& 0x800 = 0 ∧ op2 &&& 0x20 ≠ 0 then [.alloc 0, .alloc 9, .alloc 6, .alloc 2, .free 0, .free 6, .free 2, .free 9]
       else if op2 &&& 0x800 ≠ 0 ∧ op2 &&& 0x20 = 0 then [.alloc 7, .alloc 2, .alloc 0, .alloc 9, .free 0, .free 2, .free 7, .free 9]
       else if op2 &&& 0x800 ≠ 0 ∧ op2 &&& 0x20 ≠ 0 then [.alloc 7, .alloc 6, .alloc 2, .alloc 9, .alloc 0, .free 0, .free 2, .free 6, .free 7, .free 9]
       else [])

def handlerTraceBFINS (op op2 update_mask : Nat) : List RegEvent :=
  [.alloc 4] ++
      (if op2 &&& 0x0820 = 0 then [.alloc 0, .free 0]
       else if op2 &&& 0x800 = 0 ∧ op2 &&& 0x20 ≠ 0 then [.alloc 0, .alloc 6, .alloc 2, .alloc 9, .free 0, .free 6, .free 2, .free 9]
       else if op2 &&& 0x800 ≠ 0 ∧ op2 &&& 0x20 = 0 then [.alloc 7, .alloc 2, .alloc 0, .alloc 9, .free 0, .free 2, .free 7, .free 9]
       else if op2 &&& 0x800 ≠ 0 ∧ op2 &&& 0x20 ≠ 0 then [.alloc 7, .alloc 6, .alloc 2, .alloc 9, .alloc 0, .free 0, .free 2, .free 6, .free 7, .free 9]
       else []) ++ [.free 4]

def handlerTrace (h : Handler) (op op2 update_mask : Nat) : List RegEvent :=
  match h with
  | .ASL_mem => handlerTraceASL_mem op op2 update_mask
  | .LSL_mem => handlerTraceLSL_mem op op2 update_mask
  | .ROXL_mem => handlerTraceROXL_mem op op2 update_mask
  | .ROL_mem => handlerTraceROL_mem op op2 update_mask
  | .ASL => handlerTraceASL op op2 update_mask
  | .LSL => handlerTraceLSL op op2 update_mask
  | .ROL => handlerTraceROL op op2 update_mask
  | .ROXL => handlerTraceROXL op op2 update_mask
  | .BFTST => handlerTraceBFTST op op2 update_mask
  | .BFEXTU => handlerTraceBFEXTU op op2 update_mask
  | .BFEXTS => handlerTraceBFEXTS op op2 update_mask
  | .BFFFO_reg => handlerTraceBFFFO_reg op op2 update_mask
  | .BFFFO => handlerTraceBFFFO op op2 update_mask
  | .BFCHG_reg => handlerTraceBFCHG_reg op op2 update_mask
  | .BFCHG => handlerTraceBFCHG op op2 update_mask
  | .BFSET_reg => handlerTraceBFSET_reg op op2 update_mask
  | .BFSET => handlerTraceBFSET op op2 update_mask
  | .BFCLR_reg => handlerTraceBFCLR_reg op op2 update_mask
  | .BFCLR => handlerTraceBFCLR op op2 update_mask
  | .BFINS_reg => handlerTraceBFINS_reg op op2 update_mask
  | .BFINS => handlerTraceBFINS op op2 update_mask

/-- C9: on every control path of every handler, every scratch host register
acquired from the allocator during the invocation is released exactly once
before the handler returns; no handler retains a scratch register. -/
theorem C9_scratch_register_balance (h : Handler) (op op2 update_mask : Nat) :
    balancedB (handlerTrace h op op2 update_mask) = true := by
  cases h <;>
    simp only [handlerTrace, handlerTraceASL_mem, handlerTraceLSL_mem, handlerTraceROXL_mem, handlerTraceROL_mem, handlerTraceASL, handlerTraceLSL, handlerTraceROL, handlerTraceROXL, handlerTraceBFTST, handlerTraceBFEXTU, handlerTraceBFEXTS, handlerTraceBFFFO_reg, handlerTraceBFFFO, handlerTraceBFCHG_reg, handlerTraceBFCHG, handlerTraceBFSET_reg, handlerTraceBFSET, handlerTraceBFCLR_reg, handlerTraceBFCLR, handlerTraceBFINS_reg, handlerTraceBFINS] <;>
    first
    | rfl
    | (split_ifs <;> rfl)
/-! ### Bit level helpers for the emitted AArch64 instruction semantics.
Registers hold natural numbers below 2 to the 32 (w form) or 2 to the 64
(x form); immediates of the A64 bitmask encoding are written out as the
masks they denote. -/

def mask32 : Nat := 2 ^ 32 - 1
def mask64 : Nat := 2 ^ 64 - 1

/-- Rotate right of a 32-bit value; the hardware masks the amount modulo 32. -/
def ror32 (x n : Nat) : Nat :=
  ((x >>> (n % 32)) ||| (x <<< (32 - n % 32))) &&& mask32

/-- Rotate right of a 64-bit value; the hardware masks the amount modulo 64. -/
def ror64 (x n : Nat) : Nat :=
  ((x >>> (n % 64)) ||| (x <<< (64 - n % 64))) &&& mask64

/-- Bitfield insert: the low width bits of src replace dst at lsb (32-bit). -/
def bfi32 (dst src lsb width : Nat) : Nat :=
  (dst &&& (mask32 ^^^ ((2 ^ width - 1) <<< lsb))) ||| ((src &&& (2 ^ width - 1)) <<< lsb)

/-- Bitfield insert, 64-bit form. -/
def bfi64 (dst src lsb width : Nat) : Nat :=
  (dst &&& (mask64 ^^^ ((2 ^ width - 1) <<< lsb))) ||| ((src &&& (2 ^ width - 1)) <<< lsb)

/-- Bitfield extract and insert low: width bits of src at lsb replace the low
bits of dst (32-bit). -/
def bfxil32 (dst src lsb width : Nat) : Nat :=
  (dst &&& (mask32 ^^^ (2 ^ width - 1))) ||| ((src >>> lsb) &&& (2 ^ width - 1))

/-- Bitfield extract and insert low, 64-bit form. -/
def bfxil64 (dst src lsb width : Nat) : Nat :=
  (dst &&& (mask64 ^^^ (2 ^ width - 1))) ||| ((src >>> lsb) &&& (2 ^ width - 1))

/-- Modelled from the spec: the external helper EMIT_GetNZ00 writes the N and
Z flags from the host compare into the guest condition code register and
clears V and C, touching only flags present in the mask; X is untouched. -/
def EMIT_GetNZ00 (cc mask : Nat) (n z : Bool) : Nat :=
  let cc1 := cc &&& (mask32 ^^^ (mask &&& SR_NZVC))
  let cc2 := cc1 ||| (if n ∧ SR_N &&& mask ≠ 0 then SR_N else 0)
  cc2 ||| (if z ∧ SR_Z &&& mask ≠ 0 then SR_Z else 0)

/-! ### C3: EMIT_ROXL, register and register mode (source lines 1384 to 1682).
The handler masks the amount register to 6 bits with a flag setting AND and
branches over the whole rotate and store when the masked amount is zero; the
zero path still updates the requested flags.  Transcription of the aarch64
branch; dest and cc hold 32-bit values, the amount register any value. -/

def EMIT_ROXL_regreg (opcode destVal amountVal cc update_mask : Nat) : Nat × Nat :=
  let dir := opcode &&& 0x100 ≠ 0
  let size := (opcode >>> 6) &&& 3
  -- ands_immed(tmp, amount_reg, 6, 0): limit the rotate amount to 0..63
  let tmp := amountVal &&& 63
  if tmp = 0 then
    -- b_cc(NE, ...) not taken: no register change, only CPU flags
    let shiftK := match size with | 0 => 24 | 1 => 16 | _ => 0
    let shifted := (destVal <<< shiftK) % 2 ^ 32
    let cc1 :=
      if update_mask &&& SR_NZV ≠ 0 then
        EMIT_GetNZ00 cc update_mask (shifted.testBit 31) (shifted = 0)
      else cc
    let cc2 := if update_mask &&& SR_X ≠ 0 then bfxil32 cc1 cc1 4 1 else cc1
    (destVal, cc2)
  else
    -- mov_immed, udiv, msub: amount modulo 9, 17 or 33
    let m := match size with | 0 => 9 | 1 => 17 | _ => 33
    let amount := tmp % m
    -- copy the sized part of dest into the temporary
    let t0 := match size with
      | 0 => destVal &&& 0xff
      | 1 => destVal &&& 0xffff
      | _ => destVal % 2 ^ 32
    -- tst_immed(cc, 1, 32 - SRB_X): the X flag decides the orr below
    let x := cc.testBit SRB_X
    let tfin :=
      if dir then
        match size with
        | 0 =>
          let amount2 := ((2 ^ 32 - amount) + 32) % 2 ^ 32
          let t1 := if x then t0 ||| (1 <<< 8) else t0
          ror32 (bfi32 t1 t1 (32 - 9) 9) amount2
        | 1 =>
          let amount2 := ((2 ^ 32 - amount) + 64) % 2 ^ 32
          let t1 := if x then t0 ||| (1 <<< 16) else t0
          ror64 (bfi64 t1 t1 (64 - 17) 17) amount2
        | _ =>
          let amount2 := ((2 ^ 32 - amount) + 64) % 2 ^ 32
          let t1 := if x then t0 ||| (1 <<< 32) else t0
          let t2 := (t1 <<< 31) % 2 ^ 64
          ror64 (bfxil64 t2 t2 31 32) amount2
      else
        match size with
        | 0 =>
          let t1 := if x then t0 ||| (1 <<< 8) else t0
          ror32 (bfi32 t1 t1 9 9) amount
        | 1 =>
          let t1 := if x then t0 ||| (1 <<< 16) else t0
          ror64 (bfi64 t1 t1 17 17) amount
        | _ =>
          let t1 := if x then t0 ||| (1 <<< 32) else t0
          ror64 (bfi64 t1 t1 33 31) amount
    let destOut := match size with
      | 0 => bfi32 destVal tfin 0 8
      | 1 => bfi32 destVal tfin 0 16
      | _ => tfin % 2 ^ 32
    let shiftK := match size with | 0 => 24 | 1 => 16 | _ => 0
    let shifted := ((tfin % 2 ^ 32) <<< shiftK) % 2 ^ 32
    let cc1 :=
      if update_mask &&& SR_NZV ≠ 0 then
        EMIT_GetNZ00 cc update_mask (shifted.testBit 31) (shifted = 0)
      else cc
    let cc2 :=
      if update_mask &&& SR_XC ≠ 0 then
        let cbit := match size with | 0 => 8 | 1 => 16 | _ => 32
        let ccC := bfxil32 cc1 tfin cbit 1
        if update_mask &&& SR_X ≠ 0 then bfi32 ccC ccC 4 1 else ccC
      else cc1
    (destOut, cc2)

/-- C3 counterexample: ROXR.B with the amount register holding 64 (masked
amount 0), the X flag set and all flags requested.  The destination is
unchanged but the condition code register changes from 0x10 to 0x11: the C
flag is written with the value of X, refuting the claim that no flag is
modified when the masked amount is 0. -/
theorem C3_counterexample :
    (64 &&& 63 = 0) ∧
    (EMIT_ROXL_regreg 0xE230 1 64 0x10 SR_CCR).1 = 1 ∧
    (EMIT_ROXL_regreg 0xE230 1 64 0x10 SR_CCR).2 = 0x11 ∧
    (0x11 : Nat) ≠ 0x10 := by decide

/-- When the masked amount is zero, EMIT_ROXL in register/register mode takes
the early branch: the destination is returned unchanged and only the flag
update code runs. -/
theorem roxl_zero_eq (opcode destVal amountVal cc um : Nat) (hz : amountVal &&& 63 = 0) :
    EMIT_ROXL_regreg opcode destVal amountVal cc um =
      (destVal,
       (fun shifted =>
         (fun cc1 => if um &&& SR_X ≠ 0 then bfxil32 cc1 cc1 4 1 else cc1)
         (if um &&& SR_NZV ≠ 0 then
            EMIT_GetNZ00 cc um (shifted.testBit 31) (shifted = 0) else cc))
       ((destVal <<< (match (opcode >>> 6) &&& 3 with | 0 => 24 | 1 => 16 | _ => 0)) % 2 ^ 32)) := by
  simp only [EMIT_ROXL_regreg, hz]
  rfl

/-- Bit level characterisation of the zero path flag write with all CCR flags
requested: N and Z come from the compare, V and C are cleared by EMIT_GetNZ00,
then bfxil copies X into C; X and all higher SR bits are preserved. -/
theorem getnz00_bfxil_bits (cc : Nat) (n z : Bool) (hcc : cc < 2 ^ 32) :
    (fun A => (fun out =>
      out.testBit 0 = cc.testBit 4 ∧ out.testBit 1 = false ∧ out.testBit 2 = z ∧
      out.testBit 3 = n ∧ out.testBit 4 = cc.testBit 4 ∧
      ∀ k, 5 ≤ k → out.testBit k = cc.testBit k) (bfxil32 A A 4 1))
      (EMIT_GetNZ00 cc 31 n z) := by
  have h31 : (31 &&& 15 : Nat) = 15 := by decide
  have hA : EMIT_GetNZ00 cc 31 n z
      = (cc &&& (mask32 ^^^ 15)) ||| (if n then 8 else 0) ||| (if z then 4 else 0) := by
    cases n <;> cases z <;>
      simp [EMIT_GetNZ00, SR_N, SR_Z, SR_V, SR_C, SR_NZVC, SRB_N, SRB_Z, SRB_V, SRB_C, h31]
  dsimp only
  rw [hA]
  simp only [bfxil32, mask32]
  have g94 : ∀ k, Nat.testBit 4294967294 k = ((decide (k < 32)).xor (decide (k < 1))) := by
    intro k
    rw [show (4294967294 : Nat) = 2 ^ 32 - 1 ^^^ (2 ^ 1 - 1) from by decide,
        Nat.testBit_xor, Nat.testBit_two_pow_sub_one, Nat.testBit_two_pow_sub_one]
  have g80 : ∀ k, Nat.testBit 4294967280 k = ((decide (k < 32)).xor (decide (k < 4))) := by
    intro k
    rw [show (4294967280 : Nat) = 2 ^ 32 - 1 ^^^ (2 ^ 4 - 1) from by decide,
        Nat.testBit_xor, Nat.testBit_two_pow_sub_one, Nat.testBit_two_pow_sub_one]
  have e8 : ∀ k, Nat.testBit 8 k = decide (3 = k) := by
    intro k
    rw [show (8 : Nat) = 2 ^ 3 from by norm_num, Nat.testBit_two_pow]
  have e4 : ∀ k, Nat.testBit 4 k = decide (2 = k) := by
    intro k
    rw [show (4 : Nat) = 2 ^ 2 from by norm_num, Nat.testBit_two_pow]
  have g1 : ∀ k, Nat.testBit 1 k = decide (0 = k) := by
    intro k
    rw [show (1 : Nat) = 2 ^ 0 from by norm_num, Nat.testBit_two_pow]
  have gm2 : ∀ y j, 1 ≤ j → (y % 2).testBit j = false := by
    intro y j hj
    have h2 : y % 2 < 2 ^ j :=
      lt_of_lt_of_le (Nat.mod_lt y (by norm_num))
        (le_trans (by norm_num) (Nat.pow_le_pow_right (by norm_num) hj))
    exact Nat.testBit_lt_two_pow h2
  refine ⟨?_, ?_, ?_, ?_, ?_, ?_⟩
  · cases n <;> cases z <;>
      simp [Nat.testBit_or, Nat.testBit_and, Nat.testBit_shiftRight, g94, g80, e8, e4, g1, gm2]
  · cases n <;> cases z <;>
      simp [Nat.testBit_or, Nat.testBit_and, Nat.testBit_shiftRight, g94, g80, e8, e4, g1, gm2]
  · cases n <;> cases z <;>
      simp [Nat.testBit_or, Nat.testBit_and, Nat.testBit_shiftRight, g94, g80, e8, e4, g1, gm2]
  · cases n <;> cases z <;>
      simp [Nat.testBit_or, Nat.testBit_and, Nat.testBit_shiftRight, g94, g80, e8, e4, g1, gm2]
  · cases n <;> cases z <;>
      simp [Nat.testBit_or, Nat.testBit_and, Nat.testBit_shiftRight, g94, g80, e8, e4, g1, gm2]
  · intro k hk
    rcases Nat.lt_or_ge k 32 with hk32 | hk32
    · cases n <;> cases z <;>
        simp [Nat.testBit_or, Nat.testBit_and, Nat.testBit_shiftRight, g94, g80, e8, e4, g1, gm2,
              show 1 ≤ k from by omega, hk32, show ¬ k < 1 from by omega, show ¬ k < 4 from by omega,
              show ¬ 3 = k from by omega, show ¬ 2 = k from by omega, show ¬ 0 = k from by omega]
    · have hck : cc < 2 ^ k :=
        lt_of_lt_of_le hcc (Nat.pow_le_pow_right (by norm_num) hk32)
      cases n <;> cases z <;>
        simp [Nat.testBit_or, Nat.testBit_and, Nat.testBit_shiftRight, g94, g80, e8, e4, g1, gm2,
              show 1 ≤ k from by omega, show ¬ k < 32 from by omega, show ¬ k < 1 from by omega,
              show ¬ k < 4 from by omega, show ¬ 3 = k from by omega,
              show ¬ 2 = k from by omega, show ¬ 0 = k from by omega,
              Nat.testBit_lt_two_pow hck]

/-- C3 (amended): the register sourced rotate amount of ROXL/ROXR is masked to
6 bits, and when the masked amount is zero the early branch leaves the
destination register unchanged; the flags are nevertheless written: with all
CCR flags requested, N and Z are set from the unchanged destination value at
the operand size, V is cleared, C receives the old X value, and X and all
other SR bits are preserved. -/
theorem C3_rox_zero_amended (opcode destVal amountVal cc : Nat)
    (hzero : amountVal &&& 63 = 0) (hcc : cc < 2 ^ 32) :
    (EMIT_ROXL_regreg opcode destVal amountVal cc SR_CCR).1 = destVal ∧
    (EMIT_ROXL_regreg opcode destVal amountVal cc SR_CCR).2.testBit SRB_C
      = cc.testBit SRB_X ∧
    (EMIT_ROXL_regreg opcode destVal amountVal cc SR_CCR).2.testBit SRB_V = false ∧
    ((EMIT_ROXL_regreg opcode destVal amountVal cc SR_CCR).2.testBit SRB_Z = true ↔
      (destVal <<< (match (opcode >>> 6) &&& 3 with | 0 => 24 | 1 => 16 | _ => 0))
        % 2 ^ 32 = 0) ∧
    (EMIT_ROXL_regreg opcode destVal amountVal cc SR_CCR).2.testBit SRB_N
      = ((destVal <<< (match (opcode >>> 6) &&& 3 with | 0 => 24 | 1 => 16 | _ => 0))
          % 2 ^ 32).testBit 31 ∧
    (EMIT_ROXL_regreg opcode destVal amountVal cc SR_CCR).2.testBit SRB_X
      = cc.testBit SRB_X ∧
    ∀ k, 5 ≤ k →
      (EMIT_ROXL_regreg opcode destVal amountVal cc SR_CCR).2.testBit k
        = cc.testBit k := by
  rw [roxl_zero_eq opcode destVal amountVal cc SR_CCR hzero]
  dsimp only [SRB_C, SRB_V, SRB_Z, SRB_N, SRB_X]
  rw [if_pos (show SR_CCR &&& SR_NZV ≠ 0 from by decide),
      if_pos (show SR_CCR &&& SR_X ≠ 0 from by decide)]
  have hb := getnz00_bfxil_bits cc
    (((destVal <<< (match (opcode >>> 6) &&& 3 with | 0 => 24 | 1 => 16 | _ => 0))
        % 2 ^ 32).testBit 31)
    (decide ((destVal <<< (match (opcode >>> 6) &&& 3 with | 0 => 24 | 1 => 16 | _ => 0))
        % 2 ^ 32 = 0)) hcc
  dsimp only at hb ⊢
  obtain ⟨b0, b1, b2, b3, b4, b5⟩ := hb
  rw [show (SR_CCR : Nat) = 31 from rfl]
  refine ⟨rfl, b0, b1, ?_, b3, b4, b5⟩
  rw [b2]
  exact decide_eq_true_iff

/-- Witness for C3 at a concrete input: ROXR.B D0 with the amount register
holding 0 and the condition codes 3. -/
theorem C3_rox_zero_amended_witness :
    (0 &&& 63 = 0) ∧ (3 < 2 ^ 32) ∧ (EMIT_ROXL_regreg 0xE230 1 0 3 SR_CCR).1 = 1 :=
  ⟨by decide, by norm_num, (C3_rox_zero_amended 0xE230 1 0 3 (by decide) (by norm_num)).1⟩

/-! ### C4: EMIT_BFFFO_reg, direct offset and width path (source lines 3217
to 3276).  The result is an Option: some v when an emitted instruction writes
the destination register with value v, none when no emitted instruction
writes it at all. -/

/-- Binary length of a number, with explicit fuel so that it reduces by
structural recursion. -/
def bitLen : Nat → Nat → Nat
  | 0, _ => 0
  | f + 1, n => if n = 0 then 0 else bitLen f (n / 2) + 1

/-- Count of leading zeros of a 64-bit value, the semantics of the host clz64
instruction. -/
def clz64v (x : Nat) : Nat := 64 - bitLen 64 x

/-- Count of leading zeros of a 32-bit value, the semantics of the host clz
instruction. -/
def clz32v (x : Nat) : Nat := 32 - bitLen 32 x

/-- The direct offset and width path of EMIT_BFFFO_reg, entered when
(opcode2 &&& 0x0820) = 0.  srcVal is the 32-bit source data register value. -/
def EMIT_BFFFO_reg_imm (opcode2 srcVal update_mask : Nat) : Option Nat :=
  let offset := (opcode2 >>> 6) &&& 0x1f
  let width0 := opcode2 &&& 0x1f
  if offset ≠ 0 ∨ width0 ≠ 0 then
    -- lsl64 by 32 + offset, orr64 with src shifted by offset
    let t1 := ((srcVal <<< (32 + offset)) ||| (srcVal <<< offset)) % 2 ^ 64
    let width := if width0 = 0 then 32 else width0
    -- ands64_immed(tmp, tmp, width, width, 1): width ones rotated right by width
    let t2 := t1 &&& ((2 ^ width - 1) * 2 ^ (64 - width))
    -- orr64_immed(tmp, tmp, 64 - width, 0, 1): low 64 - width ones
    let t3 := t2 ||| (2 ^ (64 - width) - 1)
    -- clz64 into dest, then 32-bit add of the offset
    some ((clz64v t3 + offset) % 2 ^ 32)
  else
    -- offset 0 and width 0: the clz writing dest sits inside the
    -- update_mask guard
    if update_mask ≠ 0 then some (clz32v (srcVal % 2 ^ 32)) else none

/-- C4: the claim that a data register BFFFO always writes the destination
register fails.  With immediate offset 0 and width 0 and no flags needed
(update_mask 0, second word 0x1000), the emitted code contains no instruction
that writes the destination: the clz is guarded by update_mask.  The same
instruction with flags requested does write it, and the general immediate
path computes offset plus the position of the first set bit in the field
(shown here at offset 4, width 8). -/
theorem C4_bfffo_dest_not_written :
    (0x1000 &&& 0x0820 = 0) ∧
    EMIT_BFFFO_reg_imm 0x1000 0 0 = none ∧
    EMIT_BFFFO_reg_imm 0x1000 0 1 = some 32 ∧
    EMIT_BFFFO_reg_imm 0x1108 0x00F00000 0 = some 8 := by decide

end Emu68
